import Mathlib

/-! # Mixman DM2 driver core (`dm2.c`, `dm2.h`)

A shallow embedding of the protocol-translation core of the driver: the slider
auto-calibration (`dm2_slider_reset`, `dm2_slider_set`, `dm2_slider_get`,
`dm2_slider_update`), the LED cache (`dm2_leds_update`, `dm2_leds_send`,
`dm2_set_leds`), the raw write path (`dm2_write`), the report handler and its
tasklet (`dm2_update_status`, `dm2_tasklet`) and the MIDI codec
(`dm2_midi_send`, `dm2_midi_process`).

Conventions.
* A `u8` field is a `Nat`; arithmetic the C code performs in `int` is done in
  `Int` and truncated with `u8` exactly where the C code stores into a `u8`.
* A fixed-size byte array (`u8 x[10]`, `u8 leds[2]`) is a `List Nat` of that length.
* The casts `*(u32*)prev` and `*((u16*)(dm2->leds))` are little-endian loads,
  as on the x86 machines the driver is built for.
* A division by zero in `dm2_slider_get` has no result: the function returns `none`.
* Pointers that are only tested against `NULL` are `Bool`/`Option` values.
-/

namespace DM2

/-! ## Data model (`dm2.h`) -/

/-- Truncation of a C `int` to an unsigned 8-bit value. -/
def u8 (x : Int) : Nat := (x % 256).toNat

/-- The record `struct dm2midi`. The field `input` is the input substream pointer:
`none` is `NULL` (port closed), `some w` is an open substream that has so far
received the byte chunks `w`, one chunk per `snd_rawmidi_receive` call. -/
structure dm2midi where
  input : Option (List (List Nat))
  input_triggered : Int
  chan : Nat
  out_rstatus : Nat
deriving DecidableEq, Repr

/-- The record `struct dm2slider`; every field is a `u8`. -/
structure dm2slider where
  pos : Nat
  min : Nat
  max : Nat
  mid : Nat
  dead : Nat
  param : Nat
  midival : Nat
deriving DecidableEq, Repr

/-- The record `struct dm2` (the unused `wheels` and the unused inner `dm2midi`
copy are left out). -/
structure dm2 where
  prev_state : List Nat
  curr_state : List Nat
  sliders : List dm2slider
  /-- The countdown field of the record, spelled with an s because the C name is a reserved word here. -/
  initialise : Int
  leds : List Nat
  prev_leds : List Nat
deriving DecidableEq, Repr

/-- The record `struct usb_dm2`, restricted to the fields the core reads or writes,
together with the part of the USB core the write path talks to:
`submit_results` are the return codes `usb_submit_urb` gives to the coming
submissions of the out URB (0 once exhausted), `submitted` are the out buffers the
USB core accepted, and `write_log` records the data of every `dm2_write` call. -/
structure usb_dm2 where
  interface : Bool
  limit_sem : Nat
  output_failed : Int
  int_out_buffer : List Nat
  dm2 : dm2
  dm2midi : dm2midi
  submit_results : List Int
  submitted : List (List Nat)
  write_log : List (List Nat)
deriving DecidableEq, Repr

/-- The constant `MAX_TRANSFER`, that is `PAGE_SIZE - 512` with 4 KiB pages. -/
def MAX_TRANSFER : Nat := 4096 - 512

/-- Error number `ERESTARTSYS`. -/
def ERESTARTSYS : Int := 512
/-- Error number `ENODEV`. -/
def ENODEV : Int := 19
/-- Error number `EINVAL`. -/
def EINVAL : Int := 22

/-- The slider `dev->dm2.sliders[k]`. -/
def slider_at (dev : usb_dm2) (k : Nat) : dm2slider :=
  dev.dm2.sliders.getD k ⟨0, 0, 0, 0, 0, 0, 0⟩

/-- Store `s` into `dev->dm2.sliders[k]`. -/
def set_slider (dev : usb_dm2) (k : Nat) (s : dm2slider) : usb_dm2 :=
  { dev with dm2 := { dev.dm2 with sliders := dev.dm2.sliders.set k s } }

/-- Little-endian 32-bit load from the first four bytes of a buffer: `*(u32*)buf`. -/
def load_u32 (buf : List Nat) : Nat :=
  buf.getD 0 0 ||| (buf.getD 1 0 <<< 8) ||| (buf.getD 2 0 <<< 16) ||| (buf.getD 3 0 <<< 24)

/-- Little-endian 16-bit load from a two-byte array: `*(u16*)buf`. -/
def load_u16 (buf : List Nat) : Nat :=
  buf.getD 0 0 ||| (buf.getD 1 0 <<< 8)

/-- Little-endian 16-bit store: the two bytes of `v` truncated to 16 bits. -/
def store_u16 (v : Nat) : List Nat :=
  [v % 256, (v >>> 8) % 256]

/-! ## Slider calibration -/

/-- Embedding of `dm2_slider_reset`. -/
def dm2_slider_reset (slider : dm2slider) (value : Nat) : dm2slider :=
  { slider with
    pos := value
    mid := value
    min := u8 ((value : Int) - slider.dead - 1)
    max := if slider.max ≠ 0 then u8 ((value : Int) + slider.dead + 1) else 0
    midival := 64 }

/-- Embedding of `dm2_slider_set`. -/
def dm2_slider_set (slider : dm2slider) (value : Nat) : dm2slider :=
  let s1 := if value < slider.min then { slider with min := value } else slider
  let s2 := if s1.max ≠ 0 ∧ value > s1.max then { s1 with max := value } else s1
  { s2 with pos := value }

/-- The local `max` of `dm2_slider_get`: `slider->max`, or when that is zero
`(slider->mid<<1) - slider->min` stored into a `u8`. -/
def effective_max (slider : dm2slider) : Nat :=
  if slider.max = 0 then u8 (((slider.mid : Int) * 2) - slider.min) else slider.max

/-- Embedding of `dm2_slider_get`. The divisions are C `int` divisions (truncating);
a zero divisor gives `none`. -/
def dm2_slider_get (slider : dm2slider) : Option Int :=
  let max : Int := effective_max slider
  if slider.pos < slider.mid then
    let d : Int := (slider.mid : Int) - slider.dead - slider.min
    if d = 0 then none
    else
      let value := Int.tdiv (((slider.pos : Int) - slider.min) * 64) d
      let value := if value > 64 then 64 else value
      let value := if value < 0 then 0 else value
      let value := if value > 127 then 127 else value
      some value
  else
    let d : Int := max - slider.dead - slider.mid
    if d = 0 then none
    else
      let value := 127 - Int.tdiv ((max - slider.pos) * 63) d
      let value := if value < 64 then 64 else value
      let value := if value < 0 then 0 else value
      let value := if value > 127 then 127 else value
      some value

/-! ## MIDI codec -/

/-- Embedding of `dm2_midi_send`: nothing happens while the input port is closed;
otherwise the message is handed to `snd_rawmidi_receive` with or without its
status byte, and the status is remembered. -/
def dm2_midi_send (dev : usb_dm2) (cmd param value : Nat) : usb_dm2 :=
  match dev.dm2midi.input with
  | none => dev
  | some w =>
    let status := (cmd + dev.dm2midi.chan) % 256
    let w1 :=
      if status = dev.dm2midi.out_rstatus then w ++ [[param, value]]
      else w ++ [[status, param, value]]
    { dev with dm2midi := { dev.dm2midi with input := some w1, out_rstatus := status } }

/-- Embedding of `dm2_midi_input_open`: a fresh substream is attached and the
running status is reset. -/
def dm2_midi_input_open (dev : usb_dm2) : usb_dm2 :=
  { dev with dm2midi := { dev.dm2midi with input := some [], out_rstatus := 0 } }

/-- Embedding of `dm2_midi_input_close`. -/
def dm2_midi_input_close (dev : usb_dm2) : usb_dm2 :=
  { dev with dm2midi := { dev.dm2midi with input := none } }

/-- Embedding of `dm2_slider_update` on slider number `k`. -/
def dm2_slider_update (dev : usb_dm2) (k : Nat) (_prev curr : Nat) : Option usb_dm2 :=
  let s := dm2_slider_set (slider_at dev k) curr
  let dev1 := set_slider dev k s
  match dm2_slider_get s with
  | none => none
  | some value =>
    if value = s.midival then some dev1
    else
      let dev2 := dm2_midi_send dev1 0xb0 s.param value.toNat
      some (set_slider dev2 k { s with midival := value.toNat })

/-! ## LED cache and raw write path -/

/-- Embedding of `dm2_leds_update`. The mask `~(1 << note)` is taken at the 16 bits
of the `u16` it is stored into. -/
def dm2_leds_update (d : dm2) (note vel : Nat) : dm2 :=
  if note ≥ 16 then d
  else
    let leds := load_u16 d.leds
    { d with leds :=
        store_u16 (if vel ≠ 0 then leds ||| (1 <<< note)
                   else leds &&& (0xffff ^^^ (1 <<< note))) }

/-- Embedding of `dm2_write`, returning the new state and the return value.
The semaphore `down_interruptible` succeeds while the count is positive and is
taken as interrupted otherwise. -/
def dm2_write (dev : usb_dm2) (data : List Nat) (count : Nat) : usb_dm2 × Int :=
  let writesize := Nat.min count MAX_TRANSFER
  let dev0 := { dev with write_log := dev.write_log ++ [data] }
  if dev0.output_failed ≠ 0 then (dev0, 0)
  else if count = 0 then (dev0, 0)
  else if dev0.limit_sem = 0 then (dev0, -ERESTARTSYS)
  else
    let dev1 := { dev0 with
      limit_sem := dev0.limit_sem - 1
      int_out_buffer := data.take writesize ++ dev0.int_out_buffer.drop writesize }
    if dev1.interface = false then
      ({ dev1 with limit_sem := dev1.limit_sem + 1 }, -ENODEV)
    else
      let retval := dev1.submit_results.headD 0
      let dev2 := { dev1 with submit_results := dev1.submit_results.tail }
      if retval ≠ 0 then
        let dev3 := if retval = -EINVAL then { dev2 with output_failed := 1 } else dev2
        ({ dev3 with limit_sem := dev3.limit_sem + 1 }, retval)
      else
        ({ dev2 with output_failed := 1
                     submitted := dev2.submitted ++ [dev2.int_out_buffer] }, writesize)

/-- Embedding of `dm2_write_int_callback`. -/
def dm2_write_int_callback (dev : usb_dm2) : usb_dm2 :=
  { dev with output_failed := 0, limit_sem := dev.limit_sem + 1 }

/-- Embedding of `dm2_set_leds`. -/
def dm2_set_leds (dev : usb_dm2) (left right : Nat) : usb_dm2 :=
  (dm2_write dev [0xff ^^^ right, 0xff ^^^ left, 0xff, 0xff] 4).1

/-- Embedding of `dm2_leds_send`. -/
def dm2_leds_send (dev : usb_dm2) : usb_dm2 :=
  if dev.dm2.leds ≠ dev.dm2.prev_leds then
    let dev1 := dm2_set_leds dev (dev.dm2.leds.getD 0 0) (dev.dm2.leds.getD 1 0)
    { dev1 with dm2 := { dev1.dm2 with prev_leds := dev1.dm2.leds } }
  else dev

/-- Embedding of `dm2_midi_process`. -/
def dm2_midi_process (dev : usb_dm2) (input : List Nat) : usb_dm2 :=
  if input.getD 0 0 = 0xb0 then
    { dev with dm2 := dm2_leds_update dev.dm2 (input.getD 1 0) (input.getD 2 0) }
  else dev

/-- Embedding of `dm2_midi_output_trigger`: the pending output bytes are consumed in
groups of three while a full group is available. -/
def dm2_midi_output_trigger (dev : usb_dm2) : List Nat → usb_dm2
  | a :: b :: c :: rest => dm2_midi_output_trigger (dm2_midi_process dev [a, b, c]) rest
  | _ => dev

/-! ## Report handling -/

/-- The body of the button loop of `dm2_tasklet` for one index `i`. -/
def button_step (button_diff curr32 : Nat) (dev : usb_dm2) (i : Nat) : usb_dm2 :=
  if button_diff &&& (1 <<< i) ≠ 0 then
    dm2_midi_send dev 0x90 i (if curr32 &&& (1 <<< i) ≠ 0 then 0x7f else 0x00)
  else dev

/-- Embedding of `dm2_tasklet`. -/
def dm2_tasklet (dev : usb_dm2) : Option usb_dm2 :=
  let curr := dev.dm2.curr_state
  let prev := dev.dm2.prev_state
  let dev1 := dm2_leds_send dev
  if prev = curr then some dev1
  else
    let button_diff := load_u32 prev ^^^ load_u32 curr
    let dev2 := (List.range 32).foldl (button_step button_diff (load_u32 curr)) dev1
    let r3 :=
      if curr.getD 5 0 ≠ prev.getD 5 0 then
        dm2_slider_update dev2 0 (prev.getD 5 0) (curr.getD 5 0)
      else some dev2
    let r4 := r3.bind fun d =>
      if curr.getD 6 0 ≠ prev.getD 6 0 then
        dm2_slider_update d 1 (prev.getD 6 0) (curr.getD 6 0)
      else some d
    let r5 := r4.bind fun d =>
      if curr.getD 7 0 ≠ prev.getD 7 0 then
        dm2_slider_update d 2 (prev.getD 7 0) (curr.getD 7 0)
      else some d
    r5.map fun d => { d with dm2 := { d.dm2 with prev_state := curr } }

/-- The seeding loop of `dm2_update_status`: `dm2_slider_reset` on sliders 0, 1, 2
with bytes 5, 6, 7 of the buffer. -/
def seed_sliders (dev : usb_dm2) (buf : List Nat) : usb_dm2 :=
  (List.range 3).foldl
    (fun d i => set_slider d i (dm2_slider_reset (slider_at d i) (buf.getD (i + 5) 0))) dev

/-- The diagnostic LED writes of `dm2_update_status` ("slider initialization with
fancy LED blinking"): the four tests on the counter, in source order. -/
def diagnostic_leds (dev : usb_dm2) : usb_dm2 :=
  let d1 := if dev.dm2.initialise = 38 then dm2_set_leds dev 0xaa 0x55 else dev
  let d2 := if d1.dm2.initialise = 25 then dm2_set_leds d1 0x55 0xaa else d1
  let d3 := if d2.dm2.initialise = 12 then dm2_set_leds d2 0xff 0xff else d2
  if d3.dm2.initialise = 1 then dm2_set_leds d3 0x00 0x00 else d3

/-- Embedding of `dm2_update_status`. The result is the new state and whether the
tasklet was scheduled. The buffer byte 5 is complemented in place (`buf[5] = ~buf[5]`
on a `u8`) before anything reads it. -/
def dm2_update_status (dev : usb_dm2) (buf : List Nat) (length : Int) : usb_dm2 × Bool :=
  if length ≠ 10 then (dev, false)
  else
    let buf1 := buf.set 5 (255 - buf.getD 5 0)
    let d4 := diagnostic_leds dev
    let d5 :=
      if d4.dm2.initialise ≠ 0 then
        let d := { d4 with dm2 := { d4.dm2 with initialise := d4.dm2.initialise - 1 } }
        if d.dm2.initialise = 0 then dm2_set_leds (seed_sliders d buf1) 0 0 else d
      else d4
    if d5.dm2.initialise ≠ 0 then (d5, false)
    else ({ d5 with dm2 := { d5.dm2 with curr_state := buf1.take 10 } }, true)

/-- Embedding of `dm2_internal_init`: `memset(dm2, 0, sizeof(&dm2))` clears the first
eight bytes of the record (the size of a pointer), then the counter is set. -/
def dm2_internal_init (d : dm2) : dm2 :=
  { d with prev_state := List.replicate 8 0 ++ d.prev_state.drop 8, initialise := 50 }

/-- One delivery of a 10-byte report: `dm2_update_status`, followed by the tasklet
when it was scheduled. The second component counts the tasklet runs (0 or 1). -/
def deliver (dev : usb_dm2) (buf : List Nat) : Option (usb_dm2 × Nat) :=
  let r := dm2_update_status dev buf 10
  if r.2 then (dm2_tasklet r.1).map fun d => (d, 1) else some (r.1, 0)

/-- Delivery of a sequence of reports, in order; the second component is the number
of reports that reached the tasklet. -/
def deliver_all : usb_dm2 → List (List Nat) → Option (usb_dm2 × Nat)
  | dev, [] => some (dev, 0)
  | dev, buf :: rest =>
    (deliver dev buf).bind fun r => (deliver_all r.1 rest).map fun q => (q.1, r.2 + q.2)

/-- A well-formed raw report: ten bytes. -/
def wf_report (buf : List Nat) : Prop := buf.length = 10 ∧ ∀ b ∈ buf, b < 256

instance (buf : List Nat) : Decidable (wf_report buf) := by
  unfold wf_report; infer_instance

/-! ## Harness and expected outputs -/

/-- A sequence of `dm2_midi_send` calls, one per message `(cmd, param, value)`. -/
def send_all (dev : usb_dm2) (msgs : List (Nat × Nat × Nat)) : usb_dm2 :=
  msgs.foldl (fun d m => dm2_midi_send d m.1 m.2.1 m.2.2) dev

/-- The running-status rule as the specification words it: with remembered status
`rs`, a message whose status `cmd + chan` (an 8-bit sum) equals `rs` is written as its
two data bytes, any other as status and data bytes, and the status is remembered. -/
def spec_running_status (chan : Nat) : Nat → List (Nat × Nat × Nat) → List (List Nat)
  | _, [] => []
  | rs, (cmd, data1, data2) :: rest =>
    (if (cmd + chan) % 256 = rs then [data1, data2] else [(cmd + chan) % 256, data1, data2])
      :: spec_running_status chan ((cmd + chan) % 256) rest

/-- Button bit `i` of a raw report: bit `i % 8` of byte `i / 8`. -/
def button_bit (buf : List Nat) (i : Nat) : Bool :=
  (buf.getD (i / 8) 0).testBit (i % 8)

/-- The button transitions between two reports as the specification words them: one
Note message per differing button bit, in ascending order, with velocity `0x7f` when
the bit is set in the current report and `0x00` otherwise. -/
def spec_button_events (prev curr : List Nat) : List (Nat × Nat × Nat) :=
  ((List.range 32).filter fun i => button_bit prev i != button_bit curr i).map
    fun i => (0x90, i, if button_bit curr i then 0x7f else 0x00)

/-- A session used to evaluate the definitions: attached device, all eight write
slots free, sliders zeroed with dead zone 2, counter 50, MIDI input port open. -/
def session0 : usb_dm2 :=
  { interface := true
    limit_sem := 8
    output_failed := 0
    int_out_buffer := [0, 0, 0, 0]
    dm2 :=
      { prev_state := [0, 0, 0, 0, 0, 0, 0, 0, 0, 0]
        curr_state := [0, 0, 0, 0, 0, 0, 0, 0, 0, 0]
        sliders := [⟨0, 0, 0, 0, 2, 1, 0⟩, ⟨0, 0, 0, 0, 2, 2, 0⟩, ⟨0, 0, 0, 0, 2, 3, 0⟩]
        initialise := 50
        leds := [0, 0]
        prev_leds := [0, 0] }
    dm2midi := { input := some [], input_triggered := 0, chan := 0, out_rstatus := 0 }
    submit_results := []
    submitted := []
    write_log := [] }

/-- The session `session0` after a report that presses button 3 was copied into the
current snapshot. -/
def session_button3 : usb_dm2 :=
  { session0 with dm2 := { session0.dm2 with curr_state := [8, 0, 0, 0, 0, 0, 0, 0, 0, 0] } }


/-- A raw report with all buttons released and all sliders at raw position 0. -/
def idle_report : List Nat := [0, 0, 0, 0, 0, 0, 0, 0, 0, 0]

/-- A raw report with all buttons released and slider bytes 10, 80 and 200. -/
def sliders_report : List Nat := [0, 0, 0, 0, 0, 10, 80, 200, 0, 0]

/-- The effective maximum as the specification words it, without truncation:
`observed_max` if nonzero, else `2 * center - observed_min`. -/
def spec_effective_max (s : dm2slider) : Int :=
  if s.max ≠ 0 then (s.max : Int) else 2 * (s.mid : Int) - s.min

/-- A calibrator state without 8-bit wraparound: `observed_min < center - dead_zone`
and `center + dead_zone < effective_max ≤ 255`. -/
def no_wrap (s : dm2slider) : Prop :=
  (s.min : Int) < (s.mid : Int) - s.dead
    ∧ (s.mid : Int) + s.dead < spec_effective_max s
    ∧ spec_effective_max s ≤ 255

instance (s : dm2slider) : Decidable (no_wrap s) := by
  unfold no_wrap; infer_instance

/-- A zero-initialised calibrator with dead zone 2. -/
def slider_dead2 : dm2slider := ⟨0, 0, 0, 0, 2, 0, 0⟩

/-- The session `session0` with LED 0 requested (desired mask 1, last-sent mask 0)
while a raw write is still outstanding (`output_failed` set). -/
def session_led_pending : usb_dm2 :=
  { session0 with
    output_failed := 1
    limit_sem := 7
    dm2 := { session0.dm2 with leds := [1, 0] } }

/-- The session `session0` with LED 0 requested while the USB core is going to refuse
the next submission with `-EINVAL`. -/
def session_led_refused : usb_dm2 :=
  { session0 with
    submit_results := [-EINVAL]
    dm2 := { session0.dm2 with leds := [1, 0] } }

/-- A calibrator updated with a sequence of raw bytes: `dm2_slider_set` on each. -/
def slider_feed (s : dm2slider) (bytes : List Nat) : dm2slider :=
  bytes.foldl dm2_slider_set s

/-- The values carried by chunks written to the MIDI stream: the last byte of each. -/
def emitted_values (chunks : List (List Nat)) : List Nat :=
  chunks.map fun c => c.getLastD 0

/-- A sequence of `dm2_slider_update` calls on slider `k`, one per raw byte, each
called with the previous raw position as `prev`. -/
def slider_updates (k : Nat) : usb_dm2 → List Nat → Option usb_dm2
  | dev, [] => some dev
  | dev, b :: rest =>
    (dm2_slider_update dev k (slider_at dev k).pos b).bind fun d => slider_updates k d rest

/-- The session `session0` with slider 1 seeded at raw position 80. -/
def session_seeded : usb_dm2 :=
  set_slider session0 1 (dm2_slider_reset (slider_at session0 1) 80)

/-- The diagnostic raw write expected of a report that arrives at counter value `c`:
the buffers `dm2_set_leds` builds for `(0xaa, 0x55)`, `(0x55, 0xaa)`, `(0xff, 0xff)`
and `(0x00, 0x00)` at the counter values 38, 25, 12 and 1, nothing at any other. -/
def spec_diagnostic_writes (c : Int) : List (List Nat) :=
  if c = 38 then [[0xaa, 0x55, 0xff, 0xff]]
  else if c = 25 then [[0x55, 0xaa, 0xff, 0xff]]
  else if c = 12 then [[0x00, 0x00, 0xff, 0xff]]
  else if c = 1 then [[0xff, 0xff, 0xff, 0xff]]
  else []

/-- The diagnostic writes expected of `n` consecutive reports, the first of which
arrives at counter value `c`. -/
def settle_writes (c : Int) : Nat → List (List Nat)
  | 0 => []
  | n + 1 => spec_diagnostic_writes c ++ settle_writes (c - 1) n

/-- A zero-initialised calibrator, as `kzalloc` leaves it (dead zone 0). -/
def slider_zeroed : dm2slider := ⟨0, 0, 0, 0, 0, 0, 0⟩

/-- The session as `dm2_probe` leaves it (all of `struct usb_dm2` zeroed, eight write
slots, channel 0, counter 50), with the MIDI input port open. -/
def probe_session : usb_dm2 :=
  { interface := true
    limit_sem := 8
    output_failed := 0
    int_out_buffer := [0, 0, 0, 0]
    dm2 :=
      dm2_internal_init
        { prev_state := [0, 0, 0, 0, 0, 0, 0, 0, 0, 0]
          curr_state := [0, 0, 0, 0, 0, 0, 0, 0, 0, 0]
          sliders := [slider_zeroed, slider_zeroed, slider_zeroed]
          initialise := 0
          leds := [0, 0]
          prev_leds := [0, 0] }
    dm2midi := { input := some [], input_triggered := 0, chan := 0, out_rstatus := 0 }
    submit_results := []
    submitted := []
    write_log := [] }

/-- A raw report with all buttons released, slider byte 6 equal to `b` and the other
slider bytes 0. -/
def slider1_report (b : Nat) : List Nat := [0, 0, 0, 0, 0, 0, b, 0, 0, 0]

/-- The session `session_seeded` with the MIDI input port closed. -/
def session_seeded_closed : usb_dm2 := dm2_midi_input_close session_seeded

/-- The session `probe_session` with slider 1 seeded at raw position 0. -/
def session_seeded_zero : usb_dm2 :=
  set_slider probe_session 1 (dm2_slider_reset (slider_at probe_session 1) 0)

/-! # Theorems -/
/-! ## MIDI codec: lemmas -/

theorem midi_send_open (dev : usb_dm2) (w : List (List Nat)) (cmd p v : Nat)
    (h : dev.dm2midi.input = some w) :
    dm2_midi_send dev cmd p v =
      { dev with dm2midi := { dev.dm2midi with
          input := some (w ++ [if (cmd + dev.dm2midi.chan) % 256 = dev.dm2midi.out_rstatus
                               then [p, v] else [(cmd + dev.dm2midi.chan) % 256, p, v]])
          out_rstatus := (cmd + dev.dm2midi.chan) % 256 } } := by
  unfold dm2_midi_send
  rw [h]
  by_cases hs : (cmd + dev.dm2midi.chan) % 256 = dev.dm2midi.out_rstatus <;> simp [hs]

theorem midi_send_chan (dev : usb_dm2) (cmd p v : Nat) :
    (dm2_midi_send dev cmd p v).dm2midi.chan = dev.dm2midi.chan := by
  unfold dm2_midi_send
  cases dev.dm2midi.input <;> rfl

theorem midi_send_dm2 (dev : usb_dm2) (cmd p v : Nat) :
    (dm2_midi_send dev cmd p v).dm2 = dev.dm2 := by
  unfold dm2_midi_send
  cases dev.dm2midi.input <;> rfl

theorem send_all_dm2 (msgs : List (Nat × Nat × Nat)) (dev : usb_dm2) :
    (send_all dev msgs).dm2 = dev.dm2 := by
  induction msgs generalizing dev with
  | nil => rfl
  | cons m rest ih =>
    show (send_all (dm2_midi_send dev m.1 m.2.1 m.2.2) rest).dm2 = _
    rw [ih, midi_send_dm2]

theorem send_all_chan (msgs : List (Nat × Nat × Nat)) (dev : usb_dm2) :
    (send_all dev msgs).dm2midi.chan = dev.dm2midi.chan := by
  induction msgs generalizing dev with
  | nil => rfl
  | cons m rest ih =>
    show (send_all (dm2_midi_send dev m.1 m.2.1 m.2.2) rest).dm2midi.chan = _
    rw [ih, midi_send_chan]

/-- The stream after a sequence of sends is the old stream followed by the
running-status encoding of the messages. -/
theorem send_all_input (msgs : List (Nat × Nat × Nat)) (dev : usb_dm2) (w : List (List Nat))
    (h : dev.dm2midi.input = some w) :
    (send_all dev msgs).dm2midi.input =
      some (w ++ spec_running_status dev.dm2midi.chan dev.dm2midi.out_rstatus msgs) := by
  induction msgs generalizing dev w with
  | nil => simp [send_all, spec_running_status, h]
  | cons m rest ih =>
    obtain ⟨cmd, p, v⟩ := m
    show (send_all (dm2_midi_send dev cmd p v) rest).dm2midi.input = _
    rw [midi_send_open dev w cmd p v h]
    rw [ih _ _ rfl]
    simp [spec_running_status]

/-- C2. With the input port open and remembered status 0, a sequence of messages sent
through `dm2_midi_send` reaches the stream as its running-status encoding (two data
bytes when the 8-bit sum `cmd + chan` equals the remembered status, status and data
bytes otherwise), the remembered status ends as the status of the last message, and on
a MIDI channel (0 to 15) two button events give 3 then 2 bytes while a slider event
between them gives 3 bytes three times. -/
theorem midi_send_running_status (dev : usb_dm2) (w : List (List Nat))
    (msgs : List (Nat × Nat × Nat))
    (hopen : dev.dm2midi.input = some w) (hrs : dev.dm2midi.out_rstatus = 0) :
    (send_all dev msgs).dm2midi.input
        = some (w ++ spec_running_status dev.dm2midi.chan 0 msgs)
    ∧ (∀ cmd data1 data2, (send_all dev (msgs ++ [(cmd, data1, data2)])).dm2midi.input
        = some (w ++ spec_running_status dev.dm2midi.chan 0 msgs ++
            [if (cmd + dev.dm2midi.chan) % 256 = (send_all dev msgs).dm2midi.out_rstatus
             then [data1, data2] else [(cmd + dev.dm2midi.chan) % 256, data1, data2]])
      ∧ (send_all dev (msgs ++ [(cmd, data1, data2)])).dm2midi.out_rstatus
        = (cmd + dev.dm2midi.chan) % 256)
    ∧ (dev.dm2midi.chan ≤ 15 → ∀ i v j u p x,
        (send_all dev [(0x90, i, v), (0x90, j, u)]).dm2midi.input
          = some (w ++ [[0x90 + dev.dm2midi.chan, i, v], [j, u]])
        ∧ (send_all dev [(0x90, i, v), (0xb0, p, x), (0x90, j, u)]).dm2midi.input
          = some (w ++ [[0x90 + dev.dm2midi.chan, i, v], [0xb0 + dev.dm2midi.chan, p, x],
                        [0x90 + dev.dm2midi.chan, j, u]])) := by
  refine ⟨?_, ?_, ?_⟩
  · rw [send_all_input msgs dev w hopen, hrs]
  · intro cmd data1 data2
    have hin := send_all_input msgs dev w hopen
    have hsplit : send_all dev (msgs ++ [(cmd, data1, data2)])
        = dm2_midi_send (send_all dev msgs) cmd data1 data2 := by
      simp [send_all, List.foldl_append]
    rw [hsplit, midi_send_open _ _ cmd data1 data2 hin, send_all_chan, hrs]
    simp
  · intro hc i v j u p x
    have h1 : (0x90 + dev.dm2midi.chan) % 256 = 0x90 + dev.dm2midi.chan := by omega
    have h2 : (0xb0 + dev.dm2midi.chan) % 256 = 0xb0 + dev.dm2midi.chan := by omega
    constructor
    · rw [send_all_input _ dev w hopen, hrs]
      simp only [spec_running_status, h1]
      simp
    · rw [send_all_input _ dev w hopen, hrs]
      simp only [spec_running_status, h1, h2]
      simp

/-- Evaluation of C2 on a freshly opened port on channel 0. -/
theorem midi_send_running_status_witness :
    (dm2_midi_input_open session0).dm2midi.input = some []
    ∧ (send_all (dm2_midi_input_open session0) [(0x90, 3, 0x7f), (0x90, 3, 0)]).dm2midi.input
        = some [[0x90, 3, 0x7f], [3, 0]]
    ∧ (send_all (dm2_midi_input_open session0)
          [(0x90, 3, 0x7f), (0xb0, 1, 70), (0x90, 3, 0)]).dm2midi.input
        = some [[0x90, 3, 0x7f], [0xb0, 1, 70], [0x90, 3, 0]] :=
  have h := midi_send_running_status (dm2_midi_input_open session0) [] [] rfl rfl
  ⟨rfl, (h.2.2 (by decide) 3 0x7f 3 0 1 70).1, (h.2.2 (by decide) 3 0x7f 3 0 1 70).2⟩

/-! ## Bit-level lemmas -/

theorem and_one_shl_ne_zero (x i : Nat) : x &&& (1 <<< i) ≠ 0 ↔ x.testBit i = true := by
  rw [Nat.one_shiftLeft, Nat.and_two_pow]
  cases x.testBit i <;> simp

theorem byte_testBit_high {b j : Nat} (hb : b < 256) (hj : 8 ≤ j) : b.testBit j = false := by
  apply Nat.testBit_lt_two_pow
  calc b < 2 ^ 8 := hb
    _ ≤ 2 ^ j := Nat.pow_le_pow_right (by norm_num) hj

theorem getD_lt_256 (buf : List Nat) (h : ∀ b ∈ buf, b < 256) (k : Nat) : buf.getD k 0 < 256 := by
  rw [List.getD_eq_getElem?_getD]
  cases hk : buf[k]? with
  | none => simp
  | some b =>
    have : b ∈ buf := List.getElem?_mem hk
    simpa using h b this

/-- Bits of a little-endian 32-bit word assembled from four bytes. -/
theorem four_bytes_testBit (b0 b1 b2 b3 : Nat) (h0 : b0 < 256) (h1 : b1 < 256) (h2 : b2 < 256)
    (i : Nat) (hi : i < 32) :
    (b0 ||| (b1 <<< 8) ||| (b2 <<< 16) ||| (b3 <<< 24)).testBit i =
      (if i / 8 = 0 then b0 else if i / 8 = 1 then b1 else if i / 8 = 2 then b2 else b3).testBit
        (i % 8) := by
  simp only [Nat.testBit_or, Nat.testBit_shiftLeft]
  rcases Nat.lt_or_ge i 8 with c0 | c0
  · have e1 : i / 8 = 0 := by omega
    have e2 : i % 8 = i := by omega
    have d1 : ¬ (i ≥ 8) := by omega
    have d2 : ¬ (i ≥ 16) := by omega
    have d3 : ¬ (i ≥ 24) := by omega
    simp [e1, e2, d1, d2, d3]
  · rcases Nat.lt_or_ge i 16 with c1 | c1
    · have e1 : i / 8 = 1 := by omega
      have e2 : i % 8 = i - 8 := by omega
      have d2 : ¬ (i ≥ 16) := by omega
      have d3 : ¬ (i ≥ 24) := by omega
      simp [e1, e2, c0, d2, d3, byte_testBit_high h0 c0]
    · rcases Nat.lt_or_ge i 24 with c2 | c2
      · have e1 : i / 8 = 2 := by omega
        have e2 : i % 8 = i - 16 := by omega
        have d3 : ¬ (i ≥ 24) := by omega
        have k1 : 8 ≤ i - 8 := by omega
        simp [e1, e2, c0, c1, d3, byte_testBit_high h0 c0, byte_testBit_high h1 k1]
      · have e1 : i / 8 = 3 := by omega
        have e2 : i % 8 = i - 24 := by omega
        have k1 : 8 ≤ i - 8 := by omega
        have k2 : 8 ≤ i - 16 := by omega
        simp [e1, e2, c0, c1, c2, byte_testBit_high h0 c0, byte_testBit_high h1 k1,
          byte_testBit_high h2 k2]

/-- Bit `i` of the little-endian 32-bit load is bit `i % 8` of byte `i / 8`. -/
theorem load_u32_testBit (buf : List Nat) (h : ∀ b ∈ buf, b < 256) (i : Nat) (hi : i < 32) :
    (load_u32 buf).testBit i = button_bit buf i := by
  have h0 := getD_lt_256 buf h 0
  have h1 := getD_lt_256 buf h 1
  have h2 := getD_lt_256 buf h 2
  unfold load_u32 button_bit
  rw [four_bytes_testBit _ _ _ _ h0 h1 h2 i hi]
  have hq : i / 8 = 0 ∨ i / 8 = 1 ∨ i / 8 = 2 ∨ i / 8 = 3 := by omega
  rcases hq with e | e | e | e <;> rw [e] <;> rfl

/-- The loop test `button_diff & (1 << i)` reads the difference of the two button bits. -/
theorem button_diff_test (prev curr : List Nat) (hp : ∀ b ∈ prev, b < 256)
    (hc : ∀ b ∈ curr, b < 256) (i : Nat) (hi : i < 32) :
    ((load_u32 prev ^^^ load_u32 curr) &&& (1 <<< i) ≠ 0)
      ↔ (button_bit prev i != button_bit curr i) = true := by
  rw [and_one_shl_ne_zero, Nat.testBit_xor, load_u32_testBit prev hp i hi,
    load_u32_testBit curr hc i hi]

/-- A conditional fold of sends is the fold over the selected messages. -/
theorem foldl_button_step (bd c : Nat) (p : Nat → Bool) (f : Nat → Nat × Nat × Nat)
    (l : List Nat) (dev : usb_dm2)
    (hp : ∀ i ∈ l, (bd &&& (1 <<< i) ≠ 0) ↔ p i = true)
    (hf : ∀ i ∈ l, f i = (0x90, i, if c &&& (1 <<< i) ≠ 0 then 0x7f else 0x00)) :
    l.foldl (button_step bd c) dev = send_all dev ((l.filter p).map f) := by
  induction l generalizing dev with
  | nil => rfl
  | cons i rest ih =>
    have hr := fun d => ih d (fun j hj => hp j (List.mem_cons_of_mem _ hj))
      (fun j hj => hf j (List.mem_cons_of_mem _ hj))
    rw [List.foldl_cons, hr]
    have hpi := hp i (List.mem_cons_self _ _)
    have hfi := hf i (List.mem_cons_self _ _)
    by_cases hb : bd &&& (1 <<< i) ≠ 0
    · have : p i = true := hpi.mp hb
      rw [List.filter_cons_of_pos this, List.map_cons, hfi]
      simp only [button_step, if_pos hb]
      rfl
    · have : ¬ (p i = true) := fun h => hb (hpi.mpr h)
      rw [List.filter_cons_of_neg this]
      simp only [button_step, if_neg hb]

/-- The button loop of the tasklet sends exactly the button events. -/
theorem button_loop_eq (prev curr : List Nat) (hp : ∀ b ∈ prev, b < 256)
    (hc : ∀ b ∈ curr, b < 256) (dev : usb_dm2) :
    (List.range 32).foldl (button_step (load_u32 prev ^^^ load_u32 curr) (load_u32 curr)) dev
      = send_all dev (spec_button_events prev curr) := by
  unfold spec_button_events
  apply foldl_button_step
  · intro i hi
    exact button_diff_test prev curr hp hc i (List.mem_range.mp hi)
  · intro i hi
    have hb := and_one_shl_ne_zero (load_u32 curr) i
    rw [load_u32_testBit curr hc i (List.mem_range.mp hi)] at hb
    by_cases h : button_bit curr i = true
    · simp [h, hb.mpr h]
    · have : ¬ (load_u32 curr &&& (1 <<< i) ≠ 0) := fun x => h (hb.mp x)
      simp only [if_neg this, if_neg h]

/-! ## Raw write path: frame lemmas -/

theorem write_dm2 (dev : usb_dm2) (data : List Nat) (count : Nat) :
    (dm2_write dev data count).1.dm2 = dev.dm2 := by
  unfold dm2_write
  simp only
  split_ifs <;> rfl

theorem write_dm2midi (dev : usb_dm2) (data : List Nat) (count : Nat) :
    (dm2_write dev data count).1.dm2midi = dev.dm2midi := by
  unfold dm2_write
  simp only
  split_ifs <;> rfl

theorem set_leds_dm2 (dev : usb_dm2) (l r : Nat) : (dm2_set_leds dev l r).dm2 = dev.dm2 :=
  write_dm2 dev _ 4

theorem set_leds_dm2midi (dev : usb_dm2) (l r : Nat) :
    (dm2_set_leds dev l r).dm2midi = dev.dm2midi :=
  write_dm2midi dev _ 4

theorem leds_send_dm2midi (dev : usb_dm2) : (dm2_leds_send dev).dm2midi = dev.dm2midi := by
  unfold dm2_leds_send
  split_ifs
  · exact set_leds_dm2midi dev _ _
  · rfl

theorem leds_send_dm2 (dev : usb_dm2) :
    (dm2_leds_send dev).dm2 = { dev.dm2 with prev_leds := dev.dm2.leds } := by
  unfold dm2_leds_send
  split_ifs with h
  · simp only [set_leds_dm2]
  · have : dev.dm2.leds = dev.dm2.prev_leds := by simpa using h
    cases hd : dev.dm2 with
    | mk a b c d e f => rw [hd] at this; simp at this; simp [this]

/-! ## C1: the tasklet on reports with equal slider bytes -/

/-- The tasklet on a state whose two snapshots agree on the slider bytes: the
LED flush, then the button events, then the snapshot copy. -/
theorem tasklet_buttons_only (dev : usb_dm2)
    (hp : ∀ b ∈ dev.dm2.prev_state, b < 256) (hc : ∀ b ∈ dev.dm2.curr_state, b < 256)
    (h5 : dev.dm2.curr_state.getD 5 0 = dev.dm2.prev_state.getD 5 0)
    (h6 : dev.dm2.curr_state.getD 6 0 = dev.dm2.prev_state.getD 6 0)
    (h7 : dev.dm2.curr_state.getD 7 0 = dev.dm2.prev_state.getD 7 0) :
    dm2_tasklet dev =
      some (if dev.dm2.prev_state = dev.dm2.curr_state then dm2_leds_send dev
            else
              let d := send_all (dm2_leds_send dev)
                (spec_button_events dev.dm2.prev_state dev.dm2.curr_state)
              { d with dm2 := { d.dm2 with prev_state := dev.dm2.curr_state } }) := by
  unfold dm2_tasklet
  simp only
  by_cases he : dev.dm2.prev_state = dev.dm2.curr_state
  · rw [if_pos he, if_pos he]
  · rw [if_neg he, if_neg he]
    rw [button_loop_eq _ _ hp hc]
    simp [-List.getD_eq_getElem?_getD, h5, h6, h7]

theorem button_events_self (r : List Nat) : spec_button_events r r = [] := by
  simp [spec_button_events]

/-- When bit `i` is the only differing button bit, it is the only button event. -/
theorem button_events_single (prev curr : List Nat) (i : Nat) (hi : i < 32)
    (h : ∀ j, j < 32 → ((button_bit prev j ≠ button_bit curr j) ↔ j = i)) :
    spec_button_events prev curr = [(0x90, i, if button_bit curr i then 0x7f else 0x00)] := by
  unfold spec_button_events
  have hf : (List.range 32).filter (fun j => button_bit prev j != button_bit curr j)
      = (List.range 32).filter (fun j => j == i) := by
    apply List.filter_congr
    intro j hj
    have := h j (List.mem_range.mp hj)
    by_cases e : j = i
    · have hne := this.mpr e
      simp [e]
      subst e
      cases h1 : button_bit prev j <;> cases h2 : button_bit curr j <;> simp_all
    · have hne : ¬ (button_bit prev j ≠ button_bit curr j) := fun x => e (this.mp x)
      have : button_bit prev j = button_bit curr j := by
        by_contra hh; exact hne hh
      simp [e, this]
  rw [hf]
  have : (List.range 32).filter (fun j => j == i) = [i] := by
    interval_cases i <;> rfl
  rw [this]
  rfl

/-- C1. With the input port open and two well-formed snapshots that agree on the
slider bytes 5 to 7, the tasklet returns and appends to the MIDI stream exactly the
running-status encoding of one Note message `(0x90 + chan, i, 0x7f or 0x00)` per
differing button bit `i`, in ascending order; identical snapshots append nothing, and
a single differing bit `i` appends exactly the one message for `i`. -/
theorem tasklet_button_notes (dev : usb_dm2) (w : List (List Nat))
    (hopen : dev.dm2midi.input = some w)
    (hp : wf_report dev.dm2.prev_state) (hc : wf_report dev.dm2.curr_state)
    (h5 : dev.dm2.curr_state.getD 5 0 = dev.dm2.prev_state.getD 5 0)
    (h6 : dev.dm2.curr_state.getD 6 0 = dev.dm2.prev_state.getD 6 0)
    (h7 : dev.dm2.curr_state.getD 7 0 = dev.dm2.prev_state.getD 7 0) :
    ∃ dev1, dm2_tasklet dev = some dev1
      ∧ dev1.dm2midi.input
          = some (w ++ spec_running_status dev.dm2midi.chan dev.dm2midi.out_rstatus
              (spec_button_events dev.dm2.prev_state dev.dm2.curr_state))
      ∧ (dev.dm2.prev_state = dev.dm2.curr_state → dev1.dm2midi.input = some w)
      ∧ (∀ i, i < 32 →
          (∀ j, j < 32 →
            ((button_bit dev.dm2.prev_state j ≠ button_bit dev.dm2.curr_state j) ↔ j = i)) →
          dev1.dm2midi.input
            = some (w ++ [if (0x90 + dev.dm2midi.chan) % 256 = dev.dm2midi.out_rstatus
                then [i, if button_bit dev.dm2.curr_state i then 0x7f else 0x00]
                else [(0x90 + dev.dm2midi.chan) % 256, i,
                      if button_bit dev.dm2.curr_state i then 0x7f else 0x00]])) := by
  have hmain : ∀ dev1, dm2_tasklet dev = some dev1 →
      dev1.dm2midi.input
          = some (w ++ spec_running_status dev.dm2midi.chan dev.dm2midi.out_rstatus
              (spec_button_events dev.dm2.prev_state dev.dm2.curr_state)) := by
    intro dev1 h1
    rw [tasklet_buttons_only dev hp.2 hc.2 h5 h6 h7] at h1
    have hl : (dm2_leds_send dev).dm2midi.input = some w := by
      rw [leds_send_dm2midi]; exact hopen
    by_cases he : dev.dm2.prev_state = dev.dm2.curr_state
    · rw [if_pos he] at h1
      cases h1
      rw [he, button_events_self, leds_send_dm2midi, hopen]
      simp [spec_running_status]
    · rw [if_neg he] at h1
      cases h1
      have := send_all_input (spec_button_events dev.dm2.prev_state dev.dm2.curr_state)
        (dm2_leds_send dev) w hl
      rw [leds_send_dm2midi] at this
      exact this
  obtain ⟨dev1, h1⟩ : ∃ dev1, dm2_tasklet dev = some dev1 :=
    ⟨_, tasklet_buttons_only dev hp.2 hc.2 h5 h6 h7⟩
  refine ⟨dev1, h1, hmain dev1 h1, ?_, ?_⟩
  · intro he
    rw [hmain dev1 h1, he, button_events_self]
    simp [spec_running_status]
  · intro i hi hj
    rw [hmain dev1 h1, button_events_single _ _ i hi hj]
    simp [spec_running_status]

/-- Evaluation of C1: pressing button 3 alone sends one Note On for note 3. -/
theorem tasklet_button_notes_witness :
    ∃ dev1, dm2_tasklet session_button3 = some dev1
      ∧ dev1.dm2midi.input = some [[0x90, 3, 0x7f]] :=
  match tasklet_button_notes session_button3 [] rfl (by decide) (by decide) rfl rfl rfl with
  | ⟨dev1, h1, h2, _⟩ => ⟨dev1, h1, h2.trans (by decide)⟩

/-! ## C3: inbound control change and the desired LED mask -/

/-- Storing a word into the two LED bytes and loading it back keeps its low 16 bits. -/
theorem load_store_u16_testBit (v j : Nat) :
    (load_u16 (store_u16 v)).testBit j = (decide (j < 16) && v.testBit j) := by
  unfold load_u16 store_u16
  simp only [List.getD_cons_zero, List.getD_cons_succ, Nat.testBit_or, Nat.testBit_shiftLeft]
  have e : (256 : Nat) = 2 ^ 8 := rfl
  rw [e, Nat.testBit_mod_two_pow, Nat.testBit_mod_two_pow, Nat.testBit_shiftRight]
  rcases Nat.lt_or_ge j 8 with c | c
  · have d1 : ¬ (j ≥ 8) := by omega
    have d2 : j < 16 := by omega
    simp [c, d1, d2]
  · rcases Nat.lt_or_ge j 16 with c2 | c2
    · have d1 : ¬ (j < 8) := by omega
      have d3 : j - 8 < 8 := by omega
      have d4 : 8 + (j - 8) = j := by omega
      simp [c, d1, c2, d3, d4]
    · have d1 : ¬ (j < 8) := by omega
      have d2 : ¬ (j < 16) := by omega
      have d3 : ¬ (j - 8 < 8) := by omega
      simp [c, d1, d2, d3]

/-- The 16-bit load of two bytes has no bit above bit 15. -/
theorem load_u16_testBit_high (leds : List Nat) (h : ∀ b ∈ leds, b < 256) (j : Nat)
    (hj : 16 ≤ j) : (load_u16 leds).testBit j = false := by
  have h0 := getD_lt_256 leds h 0
  have h1 := getD_lt_256 leds h 1
  unfold load_u16
  rw [Nat.testBit_or, Nat.testBit_shiftLeft, byte_testBit_high h0 (by omega),
    byte_testBit_high h1 (show 8 ≤ j - 8 by omega)]
  simp

/-- The mask after `dm2_leds_update` with an in-range note. -/
theorem leds_update_testBit (d : dm2) (note vel j : Nat) (hn : note < 16)
    (hl : ∀ b ∈ d.leds, b < 256) :
    (load_u16 (dm2_leds_update d note vel).leds).testBit j
      = if j = note then decide (vel ≠ 0) else (load_u16 d.leds).testBit j := by
  have hn2 : ¬ (note ≥ 16) := by omega
  unfold dm2_leds_update
  rw [if_neg hn2]
  simp only
  rw [load_store_u16_testBit]
  by_cases hv : vel ≠ 0
  · rw [if_pos hv, Nat.testBit_or, Nat.one_shiftLeft, Nat.testBit_two_pow]
    by_cases hjn : j = note
    · have : j < 16 := by omega
      simp [hjn, hv, hn]
    · have hnj : ¬ (note = j) := fun e => hjn e.symm
      rcases Nat.lt_or_ge j 16 with c | c
      · simp [hjn, hnj, c]
      · have : ¬ (j < 16) := by omega
        simp [hjn, hnj, this, load_u16_testBit_high d.leds hl j c]
  · rw [if_neg hv, Nat.testBit_and, Nat.testBit_xor, Nat.one_shiftLeft, Nat.testBit_two_pow]
    have e : (0xffff : Nat) = 2 ^ 16 - 1 := rfl
    rw [e, Nat.testBit_two_pow_sub_one]
    have hv0 : vel = 0 := by simpa using hv
    by_cases hjn : j = note
    · have : j < 16 := by omega
      simp [hjn, hv0, hn]
    · have hnj : ¬ (note = j) := fun e => hjn e.symm
      rcases Nat.lt_or_ge j 16 with c | c
      · simp [hjn, hnj, c]
      · have : ¬ (j < 16) := by omega
        simp [hjn, hnj, this, load_u16_testBit_high d.leds hl j c]

/-- C3 as stated fails: a control change on channel 1 (status `0xb1`) with a nonzero
value for controller 3 leaves bit 3 of the desired LED mask clear. -/
theorem midi_process_channel_counterexample :
    0xb1 &&& 0xf0 = 0xb0
    ∧ (load_u16 session0.dm2.leds).testBit 3 = false
    ∧ (load_u16 (dm2_midi_process session0 [0xb1, 3, 0x7f]).dm2.leds).testBit 3 = false := by
  decide

/-- C3 (amended). A 3-byte group whose status byte is exactly `0xb0` updates the
desired LED mask as `set_led(data1, data2 ≠ 0)`: for `data1 < 16` bit `data1` becomes
`data2 ≠ 0` and every other bit is unchanged, for `data1 ≥ 16` nothing changes; a
group with any other status byte, `0xb1` to `0xbf` included, changes nothing. -/
theorem midi_process_control_change (dev : usb_dm2) (status data1 data2 : Nat)
    (hl : ∀ b ∈ dev.dm2.leds, b < 256) :
    (status = 0xb0 → data1 < 16 → ∀ j,
        (load_u16 (dm2_midi_process dev [status, data1, data2]).dm2.leds).testBit j
          = if j = data1 then decide (data2 ≠ 0) else (load_u16 dev.dm2.leds).testBit j)
    ∧ (status = 0xb0 → 16 ≤ data1 → dm2_midi_process dev [status, data1, data2] = dev)
    ∧ (status ≠ 0xb0 → dm2_midi_process dev [status, data1, data2] = dev) := by
  refine ⟨?_, ?_, ?_⟩
  · intro hs hd j
    subst hs
    simp only [dm2_midi_process, List.getD_cons_zero, List.getD_cons_succ, if_true]
    exact leds_update_testBit dev.dm2 data1 data2 j hd hl
  · intro hs hd
    subst hs
    simp only [dm2_midi_process, List.getD_cons_zero, List.getD_cons_succ, if_true,
      dm2_leds_update, if_pos hd]
  · intro hs
    simp only [dm2_midi_process, List.getD_cons_zero, if_neg hs]

/-- Evaluation of C3 (amended): controller 3 with value 127 on status `0xb0` sets
bit 3 of the mask and leaves bit 4 as it was. -/
theorem midi_process_control_change_witness :
    (load_u16 (dm2_midi_process session0 [0xb0, 3, 0x7f]).dm2.leds).testBit 3 = true
    ∧ (load_u16 (dm2_midi_process session0 [0xb0, 3, 0x7f]).dm2.leds).testBit 4
        = (load_u16 session0.dm2.leds).testBit 4
    ∧ dm2_midi_process session0 [0xb0, 16, 0x7f] = session0
    ∧ dm2_midi_process session0 [0xb1, 3, 0x7f] = session0 :=
  have h := midi_process_control_change session0
  ⟨((h 0xb0 3 0x7f (by decide)).1 rfl (by decide) 3).trans (by decide),
   ((h 0xb0 3 0x7f (by decide)).1 rfl (by decide) 4).trans (by decide),
   (h 0xb0 16 0x7f (by decide)).2.1 rfl (by decide),
   (h 0xb1 3 0x7f (by decide)).2.2 (by decide)⟩

/-! ## The settle period: lemmas on `dm2_update_status` -/

theorem ite_set_leds_dm2 (c : Prop) [Decidable c] (d : usb_dm2) (l r : Nat) :
    (if c then dm2_set_leds d l r else d).dm2 = d.dm2 := by
  split_ifs
  · exact set_leds_dm2 d l r
  · rfl

theorem ite_set_leds_dm2midi (c : Prop) [Decidable c] (d : usb_dm2) (l r : Nat) :
    (if c then dm2_set_leds d l r else d).dm2midi = d.dm2midi := by
  split_ifs
  · exact set_leds_dm2midi d l r
  · rfl

theorem diagnostic_leds_dm2 (dev : usb_dm2) : (diagnostic_leds dev).dm2 = dev.dm2 := by
  unfold diagnostic_leds
  simp only [ite_set_leds_dm2]

theorem diagnostic_leds_dm2midi (dev : usb_dm2) :
    (diagnostic_leds dev).dm2midi = dev.dm2midi := by
  unfold diagnostic_leds
  simp only [ite_set_leds_dm2midi]

/-- A report that arrives while the counter is at least 2 only decrements the counter
(and possibly attempts a diagnostic LED write); the tasklet is not scheduled. -/
theorem update_status_settling (dev : usb_dm2) (buf : List Nat) (h : 2 ≤ dev.dm2.initialise) :
    (dm2_update_status dev buf 10).2 = false
    ∧ (dm2_update_status dev buf 10).1.dm2
        = { dev.dm2 with initialise := dev.dm2.initialise - 1 }
    ∧ (dm2_update_status dev buf 10).1.dm2midi = dev.dm2midi := by
  have h0 : dev.dm2.initialise ≠ 0 := by omega
  have h2 : dev.dm2.initialise - 1 ≠ 0 := by omega
  unfold dm2_update_status
  simp only [ne_eq, not_true_eq_false, if_false, diagnostic_leds_dm2, diagnostic_leds_dm2midi,
    h0, h2, not_false_eq_true, if_true]
  exact ⟨trivial, trivial, trivial⟩

/-- The seeding loop on three sliders resets each from its byte of the buffer. -/
theorem seed_sliders_dm2 (dev : usb_dm2) (buf : List Nat) (s0 s1 s2 : dm2slider)
    (hs : dev.dm2.sliders = [s0, s1, s2]) :
    (seed_sliders dev buf).dm2 = { dev.dm2 with sliders :=
      [dm2_slider_reset s0 (buf.getD 5 0), dm2_slider_reset s1 (buf.getD 6 0),
       dm2_slider_reset s2 (buf.getD 7 0)] } := by
  have hr : List.range 3 = [0, 1, 2] := rfl
  simp [seed_sliders, hr, set_slider, slider_at, hs]

theorem seed_sliders_dm2midi (dev : usb_dm2) (buf : List Nat) :
    (seed_sliders dev buf).dm2midi = dev.dm2midi := by
  have hr : List.range 3 = [0, 1, 2] := rfl
  simp [seed_sliders, hr, set_slider]

/-- The report that arrives while the counter is 1 seeds the three sliders from its
slider bytes, byte 5 complemented, stores the report and schedules the tasklet. -/
theorem update_status_seeding (dev : usb_dm2) (buf : List Nat) (s0 s1 s2 : dm2slider)
    (h : dev.dm2.initialise = 1) (hs : dev.dm2.sliders = [s0, s1, s2]) :
    (dm2_update_status dev buf 10).2 = true
    ∧ (dm2_update_status dev buf 10).1.dm2
        = { dev.dm2 with
            initialise := 0
            sliders :=
              [dm2_slider_reset s0 ((buf.set 5 (255 - buf.getD 5 0)).getD 5 0),
               dm2_slider_reset s1 ((buf.set 5 (255 - buf.getD 5 0)).getD 6 0),
               dm2_slider_reset s2 ((buf.set 5 (255 - buf.getD 5 0)).getD 7 0)]
            curr_state := (buf.set 5 (255 - buf.getD 5 0)).take 10 }
    ∧ (dm2_update_status dev buf 10).1.dm2midi = dev.dm2midi := by
  have hs2 : ∀ d : usb_dm2, d.dm2 = { dev.dm2 with initialise := 0 } →
      (dm2_set_leds (seed_sliders d (buf.set 5 (255 - buf.getD 5 0))) 0 0).dm2
        = { dev.dm2 with
            initialise := 0
            sliders :=
              [dm2_slider_reset s0 ((buf.set 5 (255 - buf.getD 5 0)).getD 5 0),
               dm2_slider_reset s1 ((buf.set 5 (255 - buf.getD 5 0)).getD 6 0),
               dm2_slider_reset s2 ((buf.set 5 (255 - buf.getD 5 0)).getD 7 0)] } := by
    intro d hd
    rw [set_leds_dm2, seed_sliders_dm2 d _ s0 s1 s2 (by rw [hd]; exact hs), hd]
  unfold dm2_update_status
  simp only [ne_eq, not_true_eq_false, if_false, diagnostic_leds_dm2, diagnostic_leds_dm2midi,
    h, not_false_eq_true, if_true, sub_self, one_ne_zero]
  rw [hs2 _ rfl]
  simp only [not_true_eq_false, if_false, set_leds_dm2midi, seed_sliders_dm2midi]
  exact ⟨trivial, trivial, trivial⟩

/-- Once the counter is 0 a report of length 10 is only stored, byte 5 complemented,
and the tasklet is scheduled: no slider is reset and no LED write is attempted. -/
theorem update_status_ready (dev : usb_dm2) (buf : List Nat) (h : dev.dm2.initialise = 0) :
    dm2_update_status dev buf 10
      = ({ dev with dm2 := { dev.dm2 with
            curr_state := (buf.set 5 (255 - buf.getD 5 0)).take 10 } }, true) := by
  have hd : diagnostic_leds dev = dev := by
    unfold diagnostic_leds
    simp [h]
  unfold dm2_update_status
  simp only [hd, h, ne_eq, not_true_eq_false, if_false, not_false_eq_true, if_true]

/-- While fewer reports arrive than the counter holds, every one of them is absorbed:
the tasklet never runs, the counter drops by the number of reports and the rest of
the `dm2` record and the MIDI record are untouched. -/
theorem deliver_all_settling (bufs : List (List Nat)) (dev : usb_dm2)
    (h : (bufs.length : Int) < dev.dm2.initialise) :
    ∃ d, deliver_all dev bufs = some (d, 0)
      ∧ d.dm2 = { dev.dm2 with initialise := dev.dm2.initialise - bufs.length }
      ∧ d.dm2midi = dev.dm2midi := by
  induction bufs generalizing dev with
  | nil => exact ⟨dev, rfl, by simp, rfl⟩
  | cons buf rest ih =>
    have hlen : ((buf :: rest).length : Int) = (rest.length : Int) + 1 := by
      simp
    rw [hlen] at h
    have h2 : 2 ≤ dev.dm2.initialise := by omega
    obtain ⟨e1, e2, e3⟩ := update_status_settling dev buf h2
    have hr : (rest.length : Int) < (dm2_update_status dev buf 10).1.dm2.initialise := by
      rw [e2]; show (rest.length : Int) < dev.dm2.initialise - 1; omega
    obtain ⟨d, hd1, hd2, hd3⟩ := ih (dm2_update_status dev buf 10).1 hr
    refine ⟨d, ?_, ?_, ?_⟩
    · simp only [deliver_all, deliver, e1, Bool.false_eq_true, if_false, Option.some_bind, hd1,
        Option.map_some', zero_add]
    · rw [hd2, e2, hlen]
      simp only [dm2.mk.injEq, true_and, and_true]
      omega
    · rw [hd3, e3]

/-! ## C4: seeding on the fiftieth report -/

/-- C4 as stated fails for slider 0: after 49 idle reports, a fiftieth report with
slider bytes 10, 80, 200 seeds the centers to 245, 80 and 200, because byte 5 is
complemented before it is used. -/
theorem seeding_byte5_counterexample :
    ∃ d49, deliver_all session0 (List.replicate 49 idle_report) = some (d49, 0)
      ∧ ((dm2_update_status d49 sliders_report 10).1.dm2.sliders.map fun s => s.mid)
          = [245, 80, 200]
      ∧ (slider_at (dm2_update_status d49 sliders_report 10).1 0).mid ≠ 10 := by
  obtain ⟨d, h1, h2, -⟩ := deliver_all_settling (List.replicate 49 idle_report) session0
    (by decide)
  have hi : d.dm2.initialise = 1 := by rw [h2]; decide
  have hs : d.dm2.sliders = [⟨0, 0, 0, 0, 2, 1, 0⟩, ⟨0, 0, 0, 0, 2, 2, 0⟩, ⟨0, 0, 0, 0, 2, 3, 0⟩] := by
    rw [h2]; rfl
  obtain ⟨-, e2, -⟩ := update_status_seeding d sliders_report _ _ _ hi hs
  refine ⟨d, h1, ?_, ?_⟩
  · rw [e2]; rfl
  · unfold slider_at
    rw [e2]
    show (245 : Nat) ≠ 10
    decide

/-- C4 (amended). After 49 reports delivered to a session whose counter is 50 and
whose three calibrators have no observed maximum, the fiftieth well-formed report
processed by `dm2_update_status` leaves calibrator `i` with center = raw position =
seed, minimum = (seed - dead zone - 1) mod 256, maximum 0 and last emitted value 64,
where the seed of slider 0 is the complement `255 - byte 5` and the seeds of sliders
1 and 2 are bytes 6 and 7 of that report. -/
theorem seeding_on_fiftieth_report (dev : usb_dm2) (bufs : List (List Nat)) (last : List Nat)
    (s0 s1 s2 : dm2slider)
    (hinit : dev.dm2.initialise = 50) (hs : dev.dm2.sliders = [s0, s1, s2])
    (h0 : s0.max = 0) (h1 : s1.max = 0) (h2 : s2.max = 0)
    (hlen : bufs.length = 49) (hlast : wf_report last) :
    ∃ d49, deliver_all dev bufs = some (d49, 0)
      ∧ (dm2_update_status d49 last 10).1.dm2.sliders =
        [ { s0 with
            pos := 255 - last.getD 5 0
            mid := 255 - last.getD 5 0
            min := u8 (((255 - last.getD 5 0 : Nat) : Int) - s0.dead - 1)
            max := 0
            midival := 64 },
          { s1 with
            pos := last.getD 6 0
            mid := last.getD 6 0
            min := u8 ((last.getD 6 0 : Int) - s1.dead - 1)
            max := 0
            midival := 64 },
          { s2 with
            pos := last.getD 7 0
            mid := last.getD 7 0
            min := u8 ((last.getD 7 0 : Int) - s2.dead - 1)
            max := 0
            midival := 64 } ] := by
  obtain ⟨d, e1, e2, -⟩ := deliver_all_settling bufs dev (by rw [hinit, hlen]; decide)
  have hi : d.dm2.initialise = 1 := by rw [e2, hinit, hlen]; rfl
  have hsd : d.dm2.sliders = [s0, s1, s2] := by rw [e2]; exact hs
  obtain ⟨-, f2, -⟩ := update_status_seeding d last s0 s1 s2 hi hsd
  refine ⟨d, e1, ?_⟩
  rw [f2]
  have hl : 5 < last.length := by rw [hlast.1]; decide
  have g5 : (last.set 5 (255 - last.getD 5 0)).getD 5 0 = 255 - last.getD 5 0 := by
    simp [List.getD_eq_getElem?_getD, List.getElem?_set, hl]
  have g6 : (last.set 5 (255 - last.getD 5 0)).getD 6 0 = last.getD 6 0 := by
    simp [List.getD_eq_getElem?_getD, List.getElem?_set]
  have g7 : (last.set 5 (255 - last.getD 5 0)).getD 7 0 = last.getD 7 0 := by
    simp [List.getD_eq_getElem?_getD, List.getElem?_set]
  rw [g5, g6, g7]
  simp [dm2_slider_reset, h0, h1, h2]

/-- Evaluation of C4 (amended) on 49 idle reports followed by slider bytes 10, 80, 200
with dead zone 2. -/
theorem seeding_on_fiftieth_report_witness :
    ∃ d49, deliver_all session0 (List.replicate 49 idle_report) = some (d49, 0)
      ∧ (dm2_update_status d49 sliders_report 10).1.dm2.sliders =
        [⟨245, 242, 0, 245, 2, 1, 64⟩, ⟨80, 77, 0, 80, 2, 2, 64⟩, ⟨200, 197, 0, 200, 2, 3, 64⟩] :=
  match seeding_on_fiftieth_report session0 (List.replicate 49 idle_report) sliders_report
      ⟨0, 0, 0, 0, 2, 1, 0⟩ ⟨0, 0, 0, 0, 2, 2, 0⟩ ⟨0, 0, 0, 0, 2, 3, 0⟩
      rfl rfl rfl rfl rfl rfl (by decide) with
  | ⟨d, e1, e2⟩ => ⟨d, e1, e2.trans (by decide)⟩

/-! ## C5: the settle period and the ready state -/

theorem slider_update_initialise (dev d : usb_dm2) (k p c : Nat)
    (h : dm2_slider_update dev k p c = some d) : d.dm2.initialise = dev.dm2.initialise := by
  unfold dm2_slider_update at h
  simp only at h
  cases hg : dm2_slider_get (dm2_slider_set (slider_at dev k) c) with
  | none => rw [hg] at h; cases h
  | some v =>
    rw [hg] at h
    simp only at h
    split_ifs at h
    · cases h; rfl
    · cases h
      show (dm2_midi_send _ _ _ _).dm2.initialise = _
      rw [midi_send_dm2]
      rfl

theorem ite_slider_update_initialise (dev d : usb_dm2) (c : Prop) [Decidable c] (k p q : Nat)
    (h : (if c then dm2_slider_update dev k p q else some dev) = some d) :
    d.dm2.initialise = dev.dm2.initialise := by
  split_ifs at h
  · exact slider_update_initialise dev d k p q h
  · cases h; rfl

theorem foldl_button_step_dm2 (l : List Nat) (x : usb_dm2) (bd c : Nat) :
    (l.foldl (button_step bd c) x).dm2 = x.dm2 := by
  induction l generalizing x with
  | nil => rfl
  | cons i rest ih =>
    rw [List.foldl_cons, ih]
    unfold button_step
    by_cases hb : bd &&& (1 <<< i) ≠ 0
    · rw [if_pos hb]; exact midi_send_dm2 _ _ _ _
    · rw [if_neg hb]

/-- The tasklet never touches the counter. -/
theorem tasklet_initialise (dev d : usb_dm2) (h : dm2_tasklet dev = some d) :
    d.dm2.initialise = dev.dm2.initialise := by
  have hl : (dm2_leds_send dev).dm2.initialise = dev.dm2.initialise := by
    rw [leds_send_dm2]
  unfold dm2_tasklet at h
  simp only at h
  by_cases he : dev.dm2.prev_state = dev.dm2.curr_state
  · rw [if_pos he] at h
    cases h; exact hl
  · rw [if_neg he] at h
    simp only [Option.map_eq_some', Option.bind_eq_some] at h
    obtain ⟨d5, ⟨d4, ⟨d3, h3, h4⟩, h5⟩, hd⟩ := h
    have i3 := ite_slider_update_initialise _ _ _ _ _ _ h3
    have i4 := ite_slider_update_initialise _ _ _ _ _ _ h4
    have i5 := ite_slider_update_initialise _ _ _ _ _ _ h5
    rw [← hd]
    show d5.dm2.initialise = _
    rw [i5, i4, i3, foldl_button_step_dm2, hl]

/-- Once the counter is 0, it is 0 after any further deliveries, and every one of
them reaches the tasklet. -/
theorem deliver_all_ready (bufs : List (List Nat)) (dev : usb_dm2) (r : usb_dm2 × Nat)
    (h0 : dev.dm2.initialise = 0) (h : deliver_all dev bufs = some r) :
    r.1.dm2.initialise = 0 ∧ r.2 = bufs.length := by
  induction bufs generalizing dev r with
  | nil =>
    simp only [deliver_all, Option.some.injEq] at h
    subst h
    exact ⟨h0, rfl⟩
  | cons buf rest ih =>
    simp only [deliver_all, deliver, update_status_ready dev buf h0, if_true,
      Option.bind_eq_some, Option.map_eq_some'] at h
    obtain ⟨x, ⟨d, hd, hx⟩, q, hq, hr⟩ := h
    subst hx
    have hi : d.dm2.initialise = 0 := by
      rw [tasklet_initialise _ _ hd]; exact h0
    obtain ⟨g1, g2⟩ := ih d q hi hq
    subst hr
    refine ⟨g1, ?_⟩
    simp only [g2, List.length_cons]
    omega

/-- C5. From a counter of 50, any `n ≤ 49` reports are absorbed: delivery returns, the
tasklet (the report differ) never runs, the counter is `50 - n` and nonzero, and the
two report snapshots, the calibrators and the whole MIDI record (stream and running
status) are unchanged. Once the counter is 0, a further report is only stored and
handed to the tasklet, without any slider reset or LED write, the tasklet leaves the
counter alone, and so the counter is 0 after any later deliveries. -/
theorem settle_period_inert (dev : usb_dm2) (bufs : List (List Nat))
    (hinit : dev.dm2.initialise = 50) (hlen : bufs.length ≤ 49) :
    (∃ d, deliver_all dev bufs = some (d, 0)
      ∧ d.dm2.initialise = 50 - (bufs.length : Int)
      ∧ d.dm2.initialise ≠ 0
      ∧ d.dm2.curr_state = dev.dm2.curr_state
      ∧ d.dm2.prev_state = dev.dm2.prev_state
      ∧ d.dm2.sliders = dev.dm2.sliders
      ∧ d.dm2midi = dev.dm2midi)
    ∧ (∀ (d : usb_dm2) (buf : List Nat), d.dm2.initialise = 0 →
        dm2_update_status d buf 10
          = ({ d with dm2 := { d.dm2 with
                curr_state := (buf.set 5 (255 - buf.getD 5 0)).take 10 } }, true))
    ∧ (∀ d d1 : usb_dm2, dm2_tasklet d = some d1 → d1.dm2.initialise = d.dm2.initialise)
    ∧ (∀ (d : usb_dm2) (more : List (List Nat)) (r : usb_dm2 × Nat),
        d.dm2.initialise = 0 → deliver_all d more = some r →
        r.1.dm2.initialise = 0 ∧ r.2 = more.length) := by
  refine ⟨?_, fun d buf h => update_status_ready d buf h, tasklet_initialise,
    fun d more r h0 h => deliver_all_ready more d r h0 h⟩
  have hlt : (bufs.length : Int) < dev.dm2.initialise := by rw [hinit]; omega
  obtain ⟨d, e1, e2, e3⟩ := deliver_all_settling bufs dev hlt
  refine ⟨d, e1, ?_, ?_, ?_, ?_, ?_, e3⟩
  · rw [e2, hinit]
  · rw [e2, hinit]
    show (50 : Int) - (bufs.length : Int) ≠ 0
    omega
  · rw [e2]
  · rw [e2]
  · rw [e2]

/-- Evaluation of C5: 49 idle reports leave the counter at 1 without a tasklet run,
and the session that then takes two more reports ends with counter 0. -/
theorem settle_period_inert_witness :
    (∃ d, deliver_all session0 (List.replicate 49 idle_report) = some (d, 0)
      ∧ d.dm2.initialise = 1
      ∧ d.dm2.sliders = session0.dm2.sliders
      ∧ d.dm2midi = session0.dm2midi)
    ∧ (∀ r, deliver_all ({ session0 with dm2 := { session0.dm2 with initialise := 0 } })
          [sliders_report, idle_report] = some r → r.1.dm2.initialise = 0 ∧ r.2 = 2) :=
  have h := settle_period_inert session0 (List.replicate 49 idle_report) rfl (by decide)
  ⟨match h.1 with
    | ⟨d, e1, e2, _, _, _, e6, e7⟩ => ⟨d, e1, e2.trans (by decide), e6, e7⟩,
   fun r hr => h.2.2.2 _ _ r rfl hr⟩

/-! ## C6, C7: the value computed by `dm2_slider_get` -/

theorem u8_of_byte (x : Int) (h0 : 0 ≤ x) (h1 : x ≤ 255) : ((u8 x : Nat) : Int) = x := by
  unfold u8
  rw [Int.emod_eq_of_lt h0 (by omega)]
  exact Int.toNat_of_nonneg h0

/-- Without wraparound the `u8` local `max` of `dm2_slider_get` is the untruncated
effective maximum. -/
theorem effective_max_no_wrap (s : dm2slider) (hw : no_wrap s) :
    ((effective_max s : Nat) : Int) = spec_effective_max s := by
  obtain ⟨h1, h2, h3⟩ := hw
  unfold effective_max
  unfold spec_effective_max at h2 h3 ⊢
  by_cases hm : s.max = 0
  · have hm2 : ¬ (s.max ≠ 0) := fun h => h hm
    rw [if_pos hm]
    rw [if_neg hm2] at h2 h3 ⊢
    have e : (s.mid : Int) * 2 - s.min = 2 * (s.mid : Int) - s.min := by ring
    rw [e]
    exact u8_of_byte _ (by omega) h3
  · have hm2 : s.max ≠ 0 := hm
    rw [if_neg hm, if_pos hm2]

/-- Closed form of `dm2_slider_get` on a state without wraparound, for a raw position
between the observed minimum and the effective maximum. -/
theorem slider_get_no_wrap (s : dm2slider) (hw : no_wrap s) (p : Nat)
    (hlo : s.min ≤ p) (hhi : (p : Int) ≤ spec_effective_max s) :
    dm2_slider_get { s with pos := p } =
      some (if p < s.mid
        then min 64 (((p : Int) - s.min) * 64 / ((s.mid : Int) - s.dead - s.min))
        else max 64 (127 - (spec_effective_max s - p) * 63 / (spec_effective_max s - s.dead - s.mid))) := by
  have hE : ((effective_max { s with pos := p } : Nat) : Int) = spec_effective_max s :=
    effective_max_no_wrap s hw
  obtain ⟨h1, h2, h3⟩ := hw
  unfold dm2_slider_get
  simp only [hE]
  by_cases hlt : p < s.mid
  · have hd : (s.mid : Int) - s.dead - s.min ≠ 0 := by omega
    have hd0 : (0 : Int) < (s.mid : Int) - s.dead - s.min := by omega
    have hn : (0 : Int) ≤ ((p : Int) - s.min) * 64 := by
      have : (0 : Int) ≤ (p : Int) - s.min := by omega
      omega
    rw [if_pos hlt, if_pos hlt, if_neg hd, Int.tdiv_eq_ediv hn (le_of_lt hd0)]
    have hq : (0 : Int) ≤ ((p : Int) - s.min) * 64 / ((s.mid : Int) - s.dead - s.min) :=
      Int.ediv_nonneg hn (le_of_lt hd0)
    generalize ((p : Int) - s.min) * 64 / ((s.mid : Int) - s.dead - s.min) = q at hq ⊢
    congr 1
    by_cases c : q > 64
    · simp only [if_pos c]
      rw [min_eq_left (le_of_lt c)]
      simp
    · simp only [if_neg c]
      have : ¬ (q < 0) := by omega
      have c2 : ¬ (q > 127) := by omega
      rw [if_neg this, if_neg c2, min_eq_right (by omega)]
  · have hd0 : (0 : Int) < spec_effective_max s - s.dead - s.mid := by omega
    have hd : spec_effective_max s - s.dead - s.mid ≠ 0 := by omega
    have hn : (0 : Int) ≤ (spec_effective_max s - p) * 63 := by
      have : (0 : Int) ≤ spec_effective_max s - p := by omega
      omega
    rw [if_neg hlt, if_neg hlt, if_neg hd, Int.tdiv_eq_ediv hn (le_of_lt hd0)]
    have hq : (0 : Int) ≤ (spec_effective_max s - p) * 63 / (spec_effective_max s - s.dead - s.mid) :=
      Int.ediv_nonneg hn (le_of_lt hd0)
    generalize (spec_effective_max s - p) * 63 / (spec_effective_max s - s.dead - s.mid) = q at hq ⊢
    congr 1
    by_cases c : 127 - q < 64
    · simp only [if_pos c]
      rw [max_eq_left (le_of_lt c)]
      simp
    · simp only [if_neg c]
      have : ¬ (127 - q < 0) := by omega
      have c2 : ¬ (127 - q > 127) := by omega
      rw [if_neg this, if_neg c2, max_eq_right (by omega)]

/-- C6. On a calibrator state without 8-bit wraparound, every raw position inside
the dead zone `center - dead ≤ p ≤ center + dead` is mapped by `dm2_slider_get` to
exactly 64; and a calibrator with dead zone 2 that was reset to 64 and fed the raw
byte 64 returns 64. -/
theorem slider_get_dead_zone :
    (∀ (s : dm2slider) (p : Nat), no_wrap s →
        (s.mid : Int) - s.dead ≤ p → (p : Int) ≤ (s.mid : Int) + s.dead →
        dm2_slider_get { s with pos := p } = some 64)
    ∧ (∀ s0 : dm2slider, s0.dead = 2 →
        dm2_slider_get (dm2_slider_set (dm2_slider_reset s0 64) 64) = some 64) := by
  have main : ∀ (s : dm2slider) (p : Nat), no_wrap s →
      (s.mid : Int) - s.dead ≤ p → (p : Int) ≤ (s.mid : Int) + s.dead →
      dm2_slider_get { s with pos := p } = some 64 := by
    intro s p hw hl hh
    have hw2 := hw
    obtain ⟨h1, h2, h3⟩ := hw2
    rw [slider_get_no_wrap s hw p (by omega) (by omega)]
    congr 1
    by_cases hlt : p < s.mid
    · rw [if_pos hlt]
      have hd0 : (0 : Int) < (s.mid : Int) - s.dead - s.min := by omega
      have : (64 : Int) ≤ ((p : Int) - s.min) * 64 / ((s.mid : Int) - s.dead - s.min) := by
        rw [Int.le_ediv_iff_mul_le hd0]
        have : (s.mid : Int) - s.dead - s.min ≤ (p : Int) - s.min := by omega
        omega
      exact min_eq_left this
    · rw [if_neg hlt]
      have hd0 : (0 : Int) < spec_effective_max s - s.dead - s.mid := by omega
      have : (63 : Int) ≤ (spec_effective_max s - p) * 63 / (spec_effective_max s - s.dead - s.mid) := by
        rw [Int.le_ediv_iff_mul_le hd0]
        have : spec_effective_max s - s.dead - s.mid ≤ spec_effective_max s - p := by omega
        omega
      exact max_eq_left (by omega)
  refine ⟨main, ?_⟩
  intro s0 hd
  have hs : dm2_slider_set (dm2_slider_reset s0 64) 64
      = { dm2_slider_reset s0 64 with pos := 64 } := by
    by_cases hm : s0.max = 0 <;>
      simp [dm2_slider_set, dm2_slider_reset, hd, hm, u8]
  rw [hs]
  apply main
  · by_cases hm : s0.max = 0 <;>
      simp [no_wrap, spec_effective_max, dm2_slider_reset, hd, hm, u8]
  · simp [dm2_slider_reset, hd]
  · simp [dm2_slider_reset, hd]

/-- Evaluation of C6: the reset state (center 64, dead zone 2, minimum 61) is without
wraparound, and raw positions 62, 64 and 66 all give 64. -/
theorem slider_get_dead_zone_witness :
    no_wrap (dm2_slider_reset slider_dead2 64)
    ∧ dm2_slider_get { dm2_slider_reset slider_dead2 64 with pos := 62 } = some 64
    ∧ dm2_slider_get { dm2_slider_reset slider_dead2 64 with pos := 66 } = some 64
    ∧ dm2_slider_get (dm2_slider_set (dm2_slider_reset slider_dead2 64) 64) = some 64 :=
  ⟨by decide,
   slider_get_dead_zone.1 (dm2_slider_reset slider_dead2 64) 62 (by decide) (by decide)
     (by decide),
   slider_get_dead_zone.1 (dm2_slider_reset slider_dead2 64) 66 (by decide) (by decide)
     (by decide),
   slider_get_dead_zone.2 slider_dead2 rfl⟩

/-- C7. On a calibrator state without 8-bit wraparound and raw positions `p ≤ q`
between the observed minimum and the effective maximum, `dm2_slider_get` returns at
both, the value at `p` is at most the value at `q`, both lie in 0..127, the value at
the observed minimum is 0 and the value at the effective maximum is 127. -/
theorem slider_get_monotone (s : dm2slider) (p q : Nat) (hw : no_wrap s)
    (hp : s.min ≤ p) (hpq : p ≤ q) (hq : (q : Int) ≤ spec_effective_max s) :
    ∃ vp vq : Int,
      dm2_slider_get { s with pos := p } = some vp
      ∧ dm2_slider_get { s with pos := q } = some vq
      ∧ vp ≤ vq ∧ 0 ≤ vp ∧ vp ≤ 127 ∧ 0 ≤ vq ∧ vq ≤ 127
      ∧ dm2_slider_get { s with pos := s.min } = some 0
      ∧ dm2_slider_get { s with pos := (spec_effective_max s).toNat } = some 127 := by
  have hw2 := hw
  obtain ⟨h1, h2, h3⟩ := hw2
  have hd1 : (0 : Int) < (s.mid : Int) - s.dead - s.min := by omega
  have hd2 : (0 : Int) < spec_effective_max s - s.dead - s.mid := by omega
  have hq0 : s.min ≤ q := le_trans hp hpq
  have hp1 : (p : Int) ≤ spec_effective_max s := by omega
  have low : ∀ x : Nat, s.min ≤ x →
      (0 : Int) ≤ ((x : Int) - s.min) * 64 / ((s.mid : Int) - s.dead - s.min) := by
    intro x hx
    apply Int.ediv_nonneg _ (le_of_lt hd1)
    have : (0 : Int) ≤ (x : Int) - s.min := by omega
    omega
  have high : ∀ x : Nat, (x : Int) ≤ spec_effective_max s →
      (0 : Int) ≤ (spec_effective_max s - x) * 63 / (spec_effective_max s - s.dead - s.mid) := by
    intro x hx
    apply Int.ediv_nonneg _ (le_of_lt hd2)
    have : (0 : Int) ≤ spec_effective_max s - x := by omega
    omega
  have rng : ∀ x : Nat, s.min ≤ x → (x : Int) ≤ spec_effective_max s →
      (0 : Int) ≤ (if x < s.mid
        then min 64 (((x : Int) - s.min) * 64 / ((s.mid : Int) - s.dead - s.min))
        else max 64 (127 - (spec_effective_max s - x) * 63 / (spec_effective_max s - s.dead - s.mid)))
      ∧ (if x < s.mid
        then min 64 (((x : Int) - s.min) * 64 / ((s.mid : Int) - s.dead - s.min))
        else max 64 (127 - (spec_effective_max s - x) * 63 / (spec_effective_max s - s.dead - s.mid)))
        ≤ (127 : Int) := by
    intro x hx1 hx2
    have l := low x hx1
    have h := high x hx2
    split_ifs
    · constructor
      · exact le_min (by norm_num) l
      · exact le_trans (min_le_left _ _) (by norm_num)
    · constructor
      · exact le_trans (by norm_num) (le_max_left _ _)
      · exact max_le (by norm_num) (by omega)
  refine ⟨_, _, slider_get_no_wrap s hw p hp hp1, slider_get_no_wrap s hw q hq0 hq, ?_,
    (rng p hp hp1).1, (rng p hp hp1).2, (rng q hq0 hq).1, (rng q hq0 hq).2, ?_, ?_⟩
  · by_cases hpm : p < s.mid
    · by_cases hqm : q < s.mid
      · rw [if_pos hpm, if_pos hqm]
        apply min_le_min le_rfl
        apply Int.ediv_le_ediv hd1
        have : (p : Int) ≤ q := by exact_mod_cast hpq
        omega
      · rw [if_pos hpm, if_neg hqm]
        exact le_trans (min_le_left _ _) (le_max_left _ _)
    · have hqm : ¬ (q < s.mid) := by omega
      rw [if_neg hpm, if_neg hqm]
      apply max_le_max le_rfl
      have : (spec_effective_max s - q) * 63 / (spec_effective_max s - s.dead - s.mid)
          ≤ (spec_effective_max s - p) * 63 / (spec_effective_max s - s.dead - s.mid) := by
        apply Int.ediv_le_ediv hd2
        have : (p : Int) ≤ q := by exact_mod_cast hpq
        omega
      omega
  · have hlt : s.min < s.mid := by omega
    rw [slider_get_no_wrap s hw s.min le_rfl (by omega), if_pos hlt]
    simp
  · have hE0 : (0 : Int) ≤ spec_effective_max s := by omega
    have hcast : (((spec_effective_max s).toNat : Nat) : Int) = spec_effective_max s :=
      Int.toNat_of_nonneg hE0
    have hge : ¬ ((spec_effective_max s).toNat < s.mid) := by omega
    rw [slider_get_no_wrap s hw (spec_effective_max s).toNat (by omega) (by omega), if_neg hge, hcast]
    simp

/-- Evaluation of C7 on the state reset to 64 with dead zone 2 (minimum 61, effective
maximum 67): the values at 61, 63 and 67 are 0, 64 and 127. -/
theorem slider_get_monotone_witness :
    no_wrap (dm2_slider_reset slider_dead2 64)
    ∧ (∃ vp vq : Int,
      dm2_slider_get { dm2_slider_reset slider_dead2 64 with pos := 61 } = some vp
      ∧ dm2_slider_get { dm2_slider_reset slider_dead2 64 with pos := 63 } = some vq
      ∧ vp ≤ vq)
    ∧ dm2_slider_get { dm2_slider_reset slider_dead2 64 with pos := 61 } = some 0
    ∧ dm2_slider_get { dm2_slider_reset slider_dead2 64 with pos := 67 } = some 127 :=
  match slider_get_monotone (dm2_slider_reset slider_dead2 64) 61 63 (by decide) (by decide)
      (by decide) (by decide) with
  | ⟨vp, vq, e1, e2, e3, _, _, _, _, e4, e5⟩ => ⟨by decide, ⟨vp, vq, e1, e2, e3⟩, e4, e5⟩

/-! ## C8: the LED flush and rejected raw writes -/

/-- What `dm2_write` hands to the USB core: one more accepted buffer exactly when no
write is outstanding, the count is nonzero, a write slot is free, the device is still
attached and the submission succeeds; nothing otherwise. -/
theorem write_submitted (dev : usb_dm2) (data : List Nat) (count : Nat) :
    (dm2_write dev data count).1.submitted =
      if dev.output_failed = 0 ∧ count ≠ 0 ∧ dev.limit_sem ≠ 0 ∧ dev.interface = true
          ∧ dev.submit_results.headD 0 = 0
      then dev.submitted ++ [data.take (Nat.min count MAX_TRANSFER)
              ++ dev.int_out_buffer.drop (Nat.min count MAX_TRANSFER)]
      else dev.submitted := by
  have key : dev.submit_results.headD 0 = dev.submit_results.head?.getD 0 := by simp
  rw [key]
  unfold dm2_write
  simp only
  by_cases h1 : dev.output_failed = 0
  · by_cases h2 : count = 0
    · simp [h1, h2]
    · by_cases h3 : dev.limit_sem = 0
      · simp [h1, h2, h3]
      · by_cases h4 : dev.interface = true
        · by_cases h5 : dev.submit_results.head?.getD 0 = 0
          · simp [h1, h2, h3, h4, h5]
          · by_cases h6 : dev.submit_results.head?.getD 0 = -EINVAL
            · rw [h6] at h5
              simp [h1, h2, h3, h4, h5, h6]
            · simp [h1, h2, h3, h4, h5, h6]
        · simp [h1, h2, h3, h4]
  · simp [h1]

/-- The flush sets last-sent to desired whenever it finds them different. -/
theorem leds_send_prev_leds (dev : usb_dm2) :
    (dm2_leds_send dev).dm2.prev_leds = dev.dm2.leds
    ∧ (dm2_leds_send dev).dm2.leds = dev.dm2.leds := by
  rw [leds_send_dm2]
  exact ⟨rfl, rfl⟩

/-- A flush directly after a flush does nothing. -/
theorem leds_send_idem (dev : usb_dm2) : dm2_leds_send (dm2_leds_send dev) = dm2_leds_send dev := by
  have h := leds_send_prev_leds dev
  have : (dm2_leds_send dev).dm2.leds = (dm2_leds_send dev).dm2.prev_leds := by
    rw [h.1, h.2]
  have e : ∀ d : usb_dm2, d.dm2.leds = d.dm2.prev_leds → dm2_leds_send d = d := by
    intro d hd
    unfold dm2_leds_send
    rw [if_neg (not_not.mpr hd)]
  exact e _ this

/-- C8 as stated fails: with LED 0 pending and a write still outstanding the flush
submits nothing, yet it overwrites last-sent with desired, and the next flush no longer
sees the pending change. -/
theorem leds_send_rejected_counterexample :
    session_led_pending.dm2.leds ≠ session_led_pending.dm2.prev_leds
    ∧ session_led_pending.output_failed ≠ 0
    ∧ (dm2_leds_send session_led_pending).submitted = session_led_pending.submitted
    ∧ session_led_pending.dm2.prev_leds = [0, 0]
    ∧ (dm2_leds_send session_led_pending).dm2.prev_leds = [1, 0]
    ∧ dm2_leds_send (dm2_leds_send session_led_pending) = dm2_leds_send session_led_pending := by
  decide

/-- C8 (amended). Whenever desired differs from last-sent, the flush `dm2_leds_send`
attempts one raw write of the desired bytes and then sets last-sent to desired
whether or not `dm2_write` accepted it: when a write is outstanding or output is
disabled (`output_failed` set), or the device is gone, or the submission fails,
nothing reaches the USB core, last-sent still becomes desired, and a second flush
changes nothing, so the rejected LED change is dropped. -/
theorem leds_send_updates_last_sent (dev : usb_dm2)
    (hdiff : dev.dm2.leds ≠ dev.dm2.prev_leds) :
    (dm2_leds_send dev).dm2.prev_leds = dev.dm2.leds
    ∧ (dm2_leds_send dev).dm2.leds = dev.dm2.leds
    ∧ (dm2_leds_send dev).write_log
        = dev.write_log ++ [[0xff ^^^ dev.dm2.leds.getD 1 0, 0xff ^^^ dev.dm2.leds.getD 0 0,
            0xff, 0xff]]
    ∧ ((dev.output_failed ≠ 0 ∨ dev.interface = false ∨ dev.submit_results.headD 0 ≠ 0) →
        (dm2_leds_send dev).submitted = dev.submitted)
    ∧ dm2_leds_send (dm2_leds_send dev) = dm2_leds_send dev := by
  refine ⟨(leds_send_prev_leds dev).1, (leds_send_prev_leds dev).2, ?_, ?_, leds_send_idem dev⟩
  · unfold dm2_leds_send
    rw [if_pos hdiff]
    show (dm2_write dev _ 4).1.write_log = _
    unfold dm2_write
    simp only
    split_ifs <;> rfl
  · intro hrej
    unfold dm2_leds_send
    rw [if_pos hdiff]
    show (dm2_write dev _ 4).1.submitted = _
    rw [write_submitted]
    have : ¬ (dev.output_failed = 0 ∧ 4 ≠ 0 ∧ dev.limit_sem ≠ 0 ∧ dev.interface = true
          ∧ dev.submit_results.headD 0 = 0) := by
      rintro ⟨a, -, -, b, c⟩
      rcases hrej with h | h | h
      · exact h a
      · rw [b] at h; cases h
      · exact h c
    rw [if_neg this]

/-- Evaluation of C8 (amended) on a submission the USB core refuses: nothing is
submitted and last-sent becomes the desired mask. -/
theorem leds_send_updates_last_sent_witness :
    session_led_refused.dm2.leds ≠ session_led_refused.dm2.prev_leds
    ∧ (dm2_leds_send session_led_refused).dm2.prev_leds = [1, 0]
    ∧ (dm2_leds_send session_led_refused).write_log = [[0xff, 0xfe, 0xff, 0xff]]
    ∧ (dm2_leds_send session_led_refused).submitted = [] :=
  have h := leds_send_updates_last_sent session_led_refused (by decide)
  ⟨by decide, h.1, h.2.2.1, h.2.2.2.1 (Or.inr (Or.inr (by decide)))⟩

/-! ## C9: bounds of the calibrator -/

theorem slider_set_mid (s : dm2slider) (b : Nat) : (dm2_slider_set s b).mid = s.mid := by
  unfold dm2_slider_set
  simp only
  split_ifs <;> rfl

theorem slider_set_max_zero (s : dm2slider) (b : Nat) (h : s.max = 0) :
    (dm2_slider_set s b).max = 0 := by
  unfold dm2_slider_set
  simp only
  split_ifs <;> simp_all

/-- One update keeps `min ≤ mid ≤ max`: the minimum only drops, the maximum only rises. -/
theorem slider_set_bounds (s : dm2slider) (b : Nat) (h : s.min ≤ s.mid ∧ s.mid ≤ s.max) :
    (dm2_slider_set s b).min ≤ (dm2_slider_set s b).mid
    ∧ (dm2_slider_set s b).mid ≤ (dm2_slider_set s b).max := by
  unfold dm2_slider_set
  simp only
  split_ifs <;> simp_all <;> omega

theorem slider_feed_max_zero (bytes : List Nat) (s : dm2slider) (h : s.max = 0) :
    (slider_feed s bytes).max = 0 := by
  induction bytes generalizing s with
  | nil => exact h
  | cons b rest ih => exact ih (dm2_slider_set s b) (slider_set_max_zero s b h)

theorem slider_feed_bounds (bytes : List Nat) (s : dm2slider)
    (h : s.min ≤ s.mid ∧ s.mid ≤ s.max) :
    (slider_feed s bytes).min ≤ (slider_feed s bytes).mid
    ∧ (slider_feed s bytes).mid ≤ (slider_feed s bytes).max := by
  induction bytes generalizing s with
  | nil => exact h
  | cons b rest ih => exact ih (dm2_slider_set s b) (slider_set_bounds s b h)

/-- C9 as stated fails: a calibrator that already has an observed maximum, reset with
seed 0 and dead zone 2, gets minimum 253, center 0 and maximum 3 by 8-bit wraparound,
and after the raw byte 5 it has minimum 5, center 0 and maximum 5. -/
theorem slider_bounds_counterexample :
    (dm2_slider_reset ⟨0, 0, 200, 0, 2, 0, 0⟩ 0).max = 3
    ∧ (dm2_slider_reset ⟨0, 0, 200, 0, 2, 0, 0⟩ 0).min = 253
    ∧ (dm2_slider_reset ⟨0, 0, 200, 0, 2, 0, 0⟩ 0).mid = 0
    ∧ (slider_feed (dm2_slider_reset ⟨0, 0, 200, 0, 2, 0, 0⟩ 0) [5]).max ≠ 0
    ∧ ¬ ((slider_feed (dm2_slider_reset ⟨0, 0, 200, 0, 2, 0, 0⟩ 0) [5]).min
          ≤ (slider_feed (dm2_slider_reset ⟨0, 0, 200, 0, 2, 0, 0⟩ 0) [5]).mid) := by
  decide

/-- C9 (amended). If the calibrator had no observed maximum before the reset, or the
reset does not wrap around (`dead + 1 ≤ seed` and `seed + dead + 1 ≤ 255`), then after
`reset(seed)` and any sequence of updates: if `observed_max ≠ 0` then
`observed_min ≤ center ≤ observed_max`; in the first case `observed_max` stays 0. -/
theorem slider_bounds_invariant (s0 : dm2slider) (seed : Nat) (bytes : List Nat)
    (h : s0.max = 0 ∨ (s0.dead + 1 ≤ seed ∧ seed + s0.dead + 1 ≤ 255)) :
    ((slider_feed (dm2_slider_reset s0 seed) bytes).max ≠ 0 →
      (slider_feed (dm2_slider_reset s0 seed) bytes).min
          ≤ (slider_feed (dm2_slider_reset s0 seed) bytes).mid
      ∧ (slider_feed (dm2_slider_reset s0 seed) bytes).mid
          ≤ (slider_feed (dm2_slider_reset s0 seed) bytes).max)
    ∧ (s0.max = 0 → (slider_feed (dm2_slider_reset s0 seed) bytes).max = 0) := by
  have hz : s0.max = 0 → (slider_feed (dm2_slider_reset s0 seed) bytes).max = 0 := by
    intro h0
    apply slider_feed_max_zero
    simp [dm2_slider_reset, h0]
  refine ⟨?_, hz⟩
  intro hne
  by_cases h0 : s0.max = 0
  · exact absurd (hz h0) hne
  · rcases h with h | ⟨h1, h2⟩
    · exact absurd h h0
    · apply slider_feed_bounds
      have e1 : u8 ((seed : Int) - s0.dead - 1) = seed - s0.dead - 1 := by
        have := u8_of_byte ((seed : Int) - s0.dead - 1) (by omega) (by omega)
        omega
      have e2 : u8 ((seed : Int) + s0.dead + 1) = seed + s0.dead + 1 := by
        have := u8_of_byte ((seed : Int) + s0.dead + 1) (by omega) (by omega)
        omega
      simp only [dm2_slider_reset, ne_eq, h0, not_false_eq_true, if_true, e1, e2]
      omega

/-- Evaluation of C9 (amended): reset to 100 with dead zone 2 on a calibrator that has
a maximum, then raw bytes 10 and 250. -/
theorem slider_bounds_invariant_witness :
    (slider_feed (dm2_slider_reset ⟨0, 0, 200, 0, 2, 0, 0⟩ 100) [10, 250]).max ≠ 0
    ∧ (slider_feed (dm2_slider_reset ⟨0, 0, 200, 0, 2, 0, 0⟩ 100) [10, 250]).min
        ≤ (slider_feed (dm2_slider_reset ⟨0, 0, 200, 0, 2, 0, 0⟩ 100) [10, 250]).mid
    ∧ (slider_feed (dm2_slider_reset ⟨0, 0, 200, 0, 2, 0, 0⟩ 100) [10, 250]).mid
        ≤ (slider_feed (dm2_slider_reset ⟨0, 0, 200, 0, 2, 0, 0⟩ 100) [10, 250]).max :=
  ⟨by decide,
   (slider_bounds_invariant ⟨0, 0, 200, 0, 2, 0, 0⟩ 100 [10, 250]
      (Or.inr ⟨by decide, by decide⟩)).1 (by decide)⟩

/-! ## C10: the emission gate of `dm2_slider_update` -/

theorem slider_set_midival (s : dm2slider) (b : Nat) :
    (dm2_slider_set s b).midival = s.midival := by
  unfold dm2_slider_set
  simp only
  split_ifs <;> rfl

theorem slider_set_param (s : dm2slider) (b : Nat) : (dm2_slider_set s b).param = s.param := by
  unfold dm2_slider_set
  simp only
  split_ifs <;> rfl

/-- The value returned by `dm2_slider_get` is a 7-bit value. -/
theorem slider_get_range (s : dm2slider) (v : Int) (h : dm2_slider_get s = some v) :
    0 ≤ v ∧ v ≤ 127 := by
  unfold dm2_slider_get at h
  simp only at h
  split_ifs at h <;> cases h <;> constructor <;> omega

theorem slider_at_set_slider (dev : usb_dm2) (k : Nat) (s : dm2slider)
    (hk : k < dev.dm2.sliders.length) : slider_at (set_slider dev k s) k = s := by
  simp [slider_at, set_slider, List.getElem?_set, hk]

theorem set_slider_length (dev : usb_dm2) (k : Nat) (s : dm2slider) :
    (set_slider dev k s).dm2.sliders.length = dev.dm2.sliders.length := by
  simp [set_slider]

theorem set_slider_dm2midi (dev : usb_dm2) (k : Nat) (s : dm2slider) :
    (set_slider dev k s).dm2midi = dev.dm2midi := rfl

/-- One call of `dm2_slider_update` with the port open, on a state where the computed
value is defined: the call returns; when the value equals the last emitted value the
stream and the last emitted value are unchanged, otherwise exactly one control-change
chunk carrying the value is appended and the value becomes the last emitted value. -/
theorem slider_update_open (dev : usb_dm2) (k p b : Nat) (w : List (List Nat)) (v : Int)
    (hk : k < dev.dm2.sliders.length) (hopen : dev.dm2midi.input = some w)
    (hv : dm2_slider_get (dm2_slider_set (slider_at dev k) b) = some v) :
    ∃ d, dm2_slider_update dev k p b = some d
      ∧ d.dm2.sliders.length = dev.dm2.sliders.length
      ∧ (v = (slider_at dev k).midival →
          d.dm2midi.input = some w ∧ (slider_at d k).midival = (slider_at dev k).midival)
      ∧ (v ≠ (slider_at dev k).midival →
          d.dm2midi.input
            = some (w ++ [if (0xb0 + dev.dm2midi.chan) % 256 = dev.dm2midi.out_rstatus
                then [(slider_at dev k).param, v.toNat]
                else [(0xb0 + dev.dm2midi.chan) % 256, (slider_at dev k).param, v.toNat]])
          ∧ (slider_at d k).midival = v.toNat
          ∧ v.toNat ≠ (slider_at dev k).midival) := by
  have hr := slider_get_range _ v hv
  unfold dm2_slider_update
  simp only [hv, slider_set_midival, slider_set_param]
  by_cases he : v = (slider_at dev k).midival
  · rw [if_pos he]
    refine ⟨_, rfl, set_slider_length _ _ _, ?_, fun h => absurd he h⟩
    intro _
    refine ⟨hopen, ?_⟩
    rw [slider_at_set_slider dev k _ hk, slider_set_midival]
  · rw [if_neg he]
    refine ⟨_, rfl, ?_, fun h => absurd h he, ?_⟩
    · rw [set_slider_length]
      show (dm2_midi_send _ _ _ _).dm2.sliders.length = _
      rw [midi_send_dm2, set_slider_length]
    · intro _
      have hopen2 : (set_slider dev k (dm2_slider_set (slider_at dev k) b)).dm2midi.input
          = some w := hopen
      refine ⟨?_, ?_, ?_⟩
      · rw [set_slider_dm2midi, midi_send_open _ w _ _ _ hopen2]
        rfl
      · rw [slider_at_set_slider]
        show k < (dm2_midi_send _ _ _ _).dm2.sliders.length
        rw [midi_send_dm2, set_slider_length]
        exact hk
      · intro hc
        apply he
        rw [← hc]
        exact (Int.toNat_of_nonneg hr.1).symm

/-- Along a sequence of `dm2_slider_update` calls with the port open, the values
written to the stream form a chain of unequal neighbours that starts from the last
emitted value of the initial state. -/
theorem slider_updates_chain (k : Nat) (bytes : List Nat) (dev d : usb_dm2)
    (w : List (List Nat)) (hk : k < dev.dm2.sliders.length)
    (hopen : dev.dm2midi.input = some w) (hrun : slider_updates k dev bytes = some d) :
    ∃ chunks, d.dm2midi.input = some (w ++ chunks)
      ∧ List.Chain (fun a b => a ≠ b) (slider_at dev k).midival (emitted_values chunks) := by
  induction bytes generalizing dev w with
  | nil =>
    simp only [slider_updates, Option.some.injEq] at hrun
    subst hrun
    exact ⟨[], by simp [hopen], List.Chain.nil⟩
  | cons b rest ih =>
    simp only [slider_updates, Option.bind_eq_some] at hrun
    obtain ⟨d1, h1, h2⟩ := hrun
    have hex : ∃ v, dm2_slider_get (dm2_slider_set (slider_at dev k) b) = some v := by
      cases hg : dm2_slider_get (dm2_slider_set (slider_at dev k) b) with
      | none =>
        unfold dm2_slider_update at h1
        simp only [hg] at h1
        cases h1
      | some v => exact ⟨v, rfl⟩
    obtain ⟨v, hv⟩ := hex
    obtain ⟨d2, e1, elen, eeq, ene⟩ :=
      slider_update_open dev k (slider_at dev k).pos b w v hk hopen hv
    rw [e1] at h1
    cases h1
    have hk2 : k < d1.dm2.sliders.length := by rw [elen]; exact hk
    by_cases he : v = (slider_at dev k).midival
    · obtain ⟨i1, i2⟩ := eeq he
      obtain ⟨chunks, c1, c2⟩ := ih d1 w hk2 i1 h2
      rw [i2] at c2
      exact ⟨chunks, c1, c2⟩
    · obtain ⟨i1, i2, i3⟩ := ene he
      obtain ⟨chunks, c1, c2⟩ := ih d1 _ hk2 i1 h2
      rw [i2] at c2
      refine ⟨_ :: chunks, by rw [c1, List.append_assoc]; rfl, ?_⟩
      have hlast : emitted_values
          ((if (0xb0 + dev.dm2midi.chan) % 256 = dev.dm2midi.out_rstatus
              then [(slider_at dev k).param, v.toNat]
              else [(0xb0 + dev.dm2midi.chan) % 256, (slider_at dev k).param, v.toNat])
            :: chunks) = v.toNat :: emitted_values chunks := by
        unfold emitted_values
        split_ifs <;> simp
      rw [hlast]
      exact List.Chain.cons (fun h => i3 h.symm) c2

/-- One call of `dm2_slider_update` whatever the state of the port: when the computed
value is defined the call returns, and the MIDI record afterwards is the old one when
the value equals the last emitted value, and the one `dm2_midi_send` produces for the
control change `(0xb0, param, value)` otherwise. -/
theorem slider_update_calls_send (dev : usb_dm2) (k p b : Nat) (v : Int)
    (hk : k < dev.dm2.sliders.length)
    (hv : dm2_slider_get (dm2_slider_set (slider_at dev k) b) = some v) :
    ∃ d, dm2_slider_update dev k p b = some d
      ∧ (v = (slider_at dev k).midival →
          d.dm2midi = dev.dm2midi ∧ (slider_at d k).midival = (slider_at dev k).midival)
      ∧ (v ≠ (slider_at dev k).midival →
          d.dm2midi = (dm2_midi_send dev 0xb0 (slider_at dev k).param v.toNat).dm2midi
          ∧ (slider_at d k).midival = v.toNat) := by
  unfold dm2_slider_update
  simp only [hv, slider_set_midival, slider_set_param]
  by_cases he : v = (slider_at dev k).midival
  · rw [if_pos he]
    refine ⟨_, rfl, fun _ => ⟨rfl, ?_⟩, fun h => absurd he h⟩
    rw [slider_at_set_slider dev k _ hk, slider_set_midival]
  · rw [if_neg he]
    refine ⟨_, rfl, fun h => absurd h he, fun _ => ⟨?_, ?_⟩⟩
    · rw [set_slider_dm2midi]
      unfold dm2_midi_send
      rw [set_slider_dm2midi]
      cases dev.dm2midi.input <;> rfl
    · rw [slider_at_set_slider]
      show k < (dm2_midi_send _ _ _ _).dm2.sliders.length
      rw [midi_send_dm2, set_slider_length]
      exact hk


/-! ## C11: the diagnostic LED writes of the settle period -/

theorem write_write_log (dev : usb_dm2) (data : List Nat) (count : Nat) :
    (dm2_write dev data count).1.write_log = dev.write_log ++ [data] := by
  unfold dm2_write
  simp only
  split_ifs <;> rfl

theorem set_leds_write_log (dev : usb_dm2) (l r : Nat) :
    (dm2_set_leds dev l r).write_log
      = dev.write_log ++ [[0xff ^^^ r, 0xff ^^^ l, 0xff, 0xff]] :=
  write_write_log dev _ 4

/-- The four counter tests of `dm2_update_status` attempt exactly the diagnostic write
of the current counter value. -/
theorem diagnostic_leds_write_log (dev : usb_dm2) :
    (diagnostic_leds dev).write_log
      = dev.write_log ++ spec_diagnostic_writes dev.dm2.initialise := by
  unfold diagnostic_leds spec_diagnostic_writes
  simp only [ite_set_leds_dm2]
  by_cases h38 : dev.dm2.initialise = 38
  · have h25 : ¬ (dev.dm2.initialise = 25) := by omega
    have h12 : ¬ (dev.dm2.initialise = 12) := by omega
    have h1 : ¬ (dev.dm2.initialise = 1) := by omega
    simp only [if_pos h38, if_neg h25, if_neg h12, if_neg h1, set_leds_write_log]
    rfl
  · by_cases h25 : dev.dm2.initialise = 25
    · have h12 : ¬ (dev.dm2.initialise = 12) := by omega
      have h1 : ¬ (dev.dm2.initialise = 1) := by omega
      simp only [if_neg h38, if_pos h25, if_neg h12, if_neg h1, set_leds_write_log]
      rfl
    · by_cases h12 : dev.dm2.initialise = 12
      · have h1 : ¬ (dev.dm2.initialise = 1) := by omega
        simp only [if_neg h38, if_neg h25, if_pos h12, if_neg h1, set_leds_write_log]
        rfl
      · by_cases h1 : dev.dm2.initialise = 1
        · simp only [if_neg h38, if_neg h25, if_neg h12, if_pos h1, set_leds_write_log]
          rfl
        · simp only [if_neg h38, if_neg h25, if_neg h12, if_neg h1, List.append_nil]

/-- A report that arrives while the counter is at least 2 attempts the diagnostic
write of that counter value and no other raw write. -/
theorem update_status_settling_log (dev : usb_dm2) (buf : List Nat)
    (h : 2 ≤ dev.dm2.initialise) :
    (dm2_update_status dev buf 10).1.write_log
      = dev.write_log ++ spec_diagnostic_writes dev.dm2.initialise := by
  have h0 : dev.dm2.initialise ≠ 0 := by omega
  have h2 : dev.dm2.initialise - 1 ≠ 0 := by omega
  unfold dm2_update_status
  simp only [ne_eq, not_true_eq_false, if_false, diagnostic_leds_dm2, h0, h2,
    not_false_eq_true, if_true]
  exact diagnostic_leds_write_log dev

theorem seed_sliders_write_log (dev : usb_dm2) (buf : List Nat) :
    (seed_sliders dev buf).write_log = dev.write_log := by
  have hr : List.range 3 = [0, 1, 2] := rfl
  simp [seed_sliders, hr, set_slider]

/-- The report that arrives while the counter is 1 attempts two all-off writes: the
diagnostic one and the one of the seeding step. -/
theorem update_status_seeding_log (dev : usb_dm2) (buf : List Nat)
    (h : dev.dm2.initialise = 1) :
    (dm2_update_status dev buf 10).1.write_log
      = dev.write_log ++ [[0xff, 0xff, 0xff, 0xff], [0xff, 0xff, 0xff, 0xff]] := by
  have hd := diagnostic_leds_write_log dev
  rw [h] at hd
  have hset : ∀ d : usb_dm2, d.dm2.initialise = 0 →
      d.write_log = (diagnostic_leds dev).write_log →
      (dm2_set_leds (seed_sliders d (buf.set 5 (255 - buf.getD 5 0))) 0 0).dm2.initialise = 0
      ∧ (dm2_set_leds (seed_sliders d (buf.set 5 (255 - buf.getD 5 0))) 0 0).write_log
        = dev.write_log ++ [[0xff, 0xff, 0xff, 0xff], [0xff, 0xff, 0xff, 0xff]] := by
    intro d hi hl
    constructor
    · rw [set_leds_dm2]
      have : (seed_sliders d (buf.set 5 (255 - buf.getD 5 0))).dm2.initialise
          = d.dm2.initialise := by
        have hr : List.range 3 = [0, 1, 2] := rfl
        simp [seed_sliders, hr, set_slider]
      rw [this, hi]
    · rw [set_leds_write_log, seed_sliders_write_log, hl, hd]
      simp [spec_diagnostic_writes]
  unfold dm2_update_status
  simp only [ne_eq, not_true_eq_false, if_false, diagnostic_leds_dm2, h,
    not_false_eq_true, if_true, sub_self, one_ne_zero]
  obtain ⟨g1, g2⟩ := hset
    { diagnostic_leds dev with
      dm2 := { (diagnostic_leds dev).dm2 with initialise := 0 } } rfl rfl
  rw [diagnostic_leds_dm2] at g1 g2
  simp only [g1, not_true_eq_false, if_false]
  exact g2

/-- While fewer reports arrive than the counter holds, the raw writes attempted are
the diagnostic writes of the counter values the reports arrive at, in order. -/
theorem deliver_all_settling_log (bufs : List (List Nat)) (dev : usb_dm2)
    (h : (bufs.length : Int) < dev.dm2.initialise) :
    ∃ d, deliver_all dev bufs = some (d, 0)
      ∧ d.dm2.initialise = dev.dm2.initialise - bufs.length
      ∧ d.write_log = dev.write_log ++ settle_writes dev.dm2.initialise bufs.length := by
  induction bufs generalizing dev with
  | nil => exact ⟨dev, rfl, by simp, by simp [settle_writes]⟩
  | cons buf rest ih =>
    have hlen : ((buf :: rest).length : Int) = (rest.length : Int) + 1 := by
      simp
    rw [hlen] at h
    have h2 : 2 ≤ dev.dm2.initialise := by omega
    obtain ⟨e1, e2, -⟩ := update_status_settling dev buf h2
    have e3 := update_status_settling_log dev buf h2
    have ei : (dm2_update_status dev buf 10).1.dm2.initialise = dev.dm2.initialise - 1 := by
      rw [e2]
    have hr : (rest.length : Int) < (dm2_update_status dev buf 10).1.dm2.initialise := by
      rw [ei]; omega
    obtain ⟨d, hd1, hd2, hd3⟩ := ih (dm2_update_status dev buf 10).1 hr
    refine ⟨d, ?_, ?_, ?_⟩
    · simp only [deliver_all, deliver, e1, Bool.false_eq_true, if_false, Option.some_bind, hd1,
        Option.map_some', zero_add]
    · rw [hd2, ei, hlen]
      omega
    · rw [hd3, e3, ei, List.length_cons, List.append_assoc]
      rfl

/-- C11 as stated fails: the 49 reports arrive at the counter values 50 down to 2, so
only the three diagnostic writes of the counter values 38, 25 and 12 are attempted;
the all-off write is not among them. -/
theorem settle_three_writes_counterexample :
    ∃ d, deliver_all session0 (List.replicate 49 idle_report) = some (d, 0)
      ∧ d.dm2.initialise = 1
      ∧ d.write_log
          = [[0xaa, 0x55, 0xff, 0xff], [0x55, 0xaa, 0xff, 0xff], [0x00, 0x00, 0xff, 0xff]]
      ∧ d.write_log.length ≠ 4
      ∧ [0xff, 0xff, 0xff, 0xff] ∉ d.write_log := by
  obtain ⟨d, h1, h2, h3⟩ := deliver_all_settling_log (List.replicate 49 idle_report) session0
    (by decide)
  have hi : d.dm2.initialise = 1 := by rw [h2]; rfl
  have hw : d.write_log
      = [[0xaa, 0x55, 0xff, 0xff], [0x55, 0xaa, 0xff, 0xff], [0x00, 0x00, 0xff, 0xff]] := by
    rw [h3]; decide
  refine ⟨d, h1, hi, hw, ?_, ?_⟩
  · rw [hw]; decide
  · rw [hw]; decide

/-- C11 (amended). From a counter of 50, the raw LED writes attempted during exactly
49 delivered reports are exactly three diagnostic writes, those of the counter values
38, 25 and 12 in that order: two alternating, mutually inverted patterns, then all LEDs
on. Each report arriving at a counter value of at least 2 attempts the diagnostic write
of that value and nothing else, and the fiftieth report, arriving at counter value 1,
attempts the all-off diagnostic write followed by the all-off write of the seeding
step. -/
theorem settle_diagnostic_writes (dev : usb_dm2) (bufs : List (List Nat))
    (hinit : dev.dm2.initialise = 50) (hlen : bufs.length = 49) :
    ∃ d, deliver_all dev bufs = some (d, 0)
      ∧ d.write_log = dev.write_log ++
          [[0xff ^^^ 0x55, 0xff ^^^ 0xaa, 0xff, 0xff], [0xff ^^^ 0xaa, 0xff ^^^ 0x55, 0xff, 0xff],
           [0xff ^^^ 0xff, 0xff ^^^ 0xff, 0xff, 0xff]]
      ∧ (∀ k, k < 49 → ∃ dk, deliver_all dev (bufs.take k) = some (dk, 0)
          ∧ dk.dm2.initialise = 50 - (k : Int)
          ∧ (dm2_update_status dk (bufs.getD k []) 10).1.write_log
              = dk.write_log ++ spec_diagnostic_writes (50 - (k : Int)))
      ∧ (∀ last : List Nat, (dm2_update_status d last 10).1.write_log
          = d.write_log ++ [[0xff ^^^ 0x00, 0xff ^^^ 0x00, 0xff, 0xff],
              [0xff ^^^ 0x00, 0xff ^^^ 0x00, 0xff, 0xff]]) := by
  obtain ⟨d, h1, h2, h3⟩ := deliver_all_settling_log bufs dev (by rw [hinit, hlen]; decide)
  have hi : d.dm2.initialise = 1 := by rw [h2, hinit, hlen]; rfl
  refine ⟨d, h1, ?_, ?_, ?_⟩
  · rw [h3, hinit, hlen]
    have : settle_writes 50 49
        = [[0xff ^^^ 0x55, 0xff ^^^ 0xaa, 0xff, 0xff], [0xff ^^^ 0xaa, 0xff ^^^ 0x55, 0xff, 0xff],
           [0xff ^^^ 0xff, 0xff ^^^ 0xff, 0xff, 0xff]] := by decide
    rw [this]
  · intro k hk
    have hkl : (bufs.take k).length = k := by
      rw [List.length_take, hlen]; omega
    obtain ⟨dk, g1, g2, -⟩ := deliver_all_settling_log (bufs.take k) dev
      (by rw [hkl, hinit]; omega)
    have gi : dk.dm2.initialise = 50 - (k : Int) := by rw [g2, hkl, hinit]
    refine ⟨dk, g1, gi, ?_⟩
    rw [update_status_settling_log dk _ (by rw [gi]; omega), gi]
  · intro last
    exact update_status_seeding_log d last hi

/-- Evaluation of C11 (amended) on 49 idle reports: three writes, and the report of
counter value 38 is the thirteenth. -/
theorem settle_diagnostic_writes_witness :
    ∃ d, deliver_all session0 (List.replicate 49 idle_report) = some (d, 0)
      ∧ d.write_log
          = [[0xaa, 0x55, 0xff, 0xff], [0x55, 0xaa, 0xff, 0xff], [0x00, 0x00, 0xff, 0xff]]
      ∧ (dm2_update_status d sliders_report 10).1.write_log
          = d.write_log ++ [[0xff, 0xff, 0xff, 0xff], [0xff, 0xff, 0xff, 0xff]]
      ∧ ∃ d12, deliver_all session0 ((List.replicate 49 idle_report).take 12) = some (d12, 0)
          ∧ d12.dm2.initialise = 38
          ∧ (dm2_update_status d12 idle_report 10).1.write_log
              = d12.write_log ++ [[0xaa, 0x55, 0xff, 0xff]] :=
  match settle_diagnostic_writes session0 (List.replicate 49 idle_report) rfl (by decide) with
  | ⟨d, e1, e2, e3, e4⟩ =>
    ⟨d, e1, e2, e4 sliders_report,
      match e3 12 (by decide) with
      | ⟨d12, f1, f2, f3⟩ => ⟨d12, f1, f2, f3⟩⟩

/-! ## C12: the divisors of `dm2_slider_get` -/

/-- C12 fails on the code: a zero-initialised calibrator reset with seed 0 and then
updated with the raw bytes 5 and 0 has minimum, center and position 0 and no observed
maximum, so `dm2_slider_get` takes the upper branch with effective maximum 0 and
divisor `0 - 0 - 0 = 0`; it has no result. The driver reaches this state through its
own entry points: after 49 reports, a fiftieth with slider byte 6 equal to 0, then one
with byte 6 equal to 5 is processed, and the next one with byte 6 equal to 0 makes the
tasklet divide by zero. -/
theorem slider_get_zero_divisor :
    slider_zeroed.max = 0
    ∧ slider_feed (dm2_slider_reset slider_zeroed 0) [5, 0] = ⟨0, 0, 0, 0, 0, 0, 64⟩
    ∧ ¬ ((slider_feed (dm2_slider_reset slider_zeroed 0) [5, 0]).pos
          < (slider_feed (dm2_slider_reset slider_zeroed 0) [5, 0]).mid)
    ∧ effective_max (slider_feed (dm2_slider_reset slider_zeroed 0) [5, 0]) = 0
    ∧ ((effective_max (slider_feed (dm2_slider_reset slider_zeroed 0) [5, 0]) : Int)
        - (slider_feed (dm2_slider_reset slider_zeroed 0) [5, 0]).dead
        - (slider_feed (dm2_slider_reset slider_zeroed 0) [5, 0]).mid) = 0
    ∧ dm2_slider_get (slider_feed (dm2_slider_reset slider_zeroed 0) [5, 0]) = none
    ∧ (deliver_all probe_session
          (List.replicate 49 idle_report ++ [slider1_report 0, slider1_report 5])).isSome = true
    ∧ deliver_all probe_session
          (List.replicate 49 idle_report ++ [slider1_report 0, slider1_report 5, slider1_report 0])
        = none := by
  refine ⟨by decide, by decide, by decide, by decide, by decide, by decide, ?_, ?_⟩
  · set_option maxRecDepth 100000 in decide
  · set_option maxRecDepth 100000 in decide

theorem slider_set_dead (s : dm2slider) (b : Nat) : (dm2_slider_set s b).dead = s.dead := by
  unfold dm2_slider_set
  simp only
  split_ifs <;> rfl

theorem slider_set_min_le (s : dm2slider) (b : Nat) : (dm2_slider_set s b).min ≤ s.min := by
  unfold dm2_slider_set
  simp only
  split_ifs with h1 h2 h2
  · exact le_of_lt h1
  · exact le_of_lt h1
  · exact le_rfl
  · exact le_rfl

/-- Both divisors of `dm2_slider_get` are nonzero on a state without observed maximum
whose minimum lies below `center - dead_zone`. -/
theorem slider_get_defined (s : dm2slider) (hmax : s.max = 0)
    (hmin : s.min + s.dead + 1 ≤ s.mid) :
    ∃ v, dm2_slider_get s = some v := by
  have he : ((effective_max s : Nat) : Int) = ((s.mid : Int) * 2 - s.min) % 256 := by
    unfold effective_max u8
    rw [if_pos hmax]
    exact Int.toNat_of_nonneg (Int.emod_nonneg _ (by norm_num))
  unfold dm2_slider_get
  simp only [he]
  by_cases hlt : s.pos < s.mid
  · have hd : ¬ ((s.mid : Int) - s.dead - s.min = 0) := by omega
    rw [if_pos hlt, if_neg hd]
    exact ⟨_, rfl⟩
  · have hd : ¬ (((s.mid : Int) * 2 - s.min) % 256 - s.dead - s.mid = 0) := by omega
    rw [if_neg hlt, if_neg hd]
    exact ⟨_, rfl⟩

/-- Where the reset does not wrap below zero (`dead + 1 ≤ seed`) on a calibrator
without observed maximum, `dm2_slider_get` has a result after any sequence of updates:
the zero divisor needs the wrapped minimum of a seed below `dead + 1`. -/
theorem slider_get_defined_after_reset (s0 : dm2slider) (seed : Nat) (bytes : List Nat)
    (hmax : s0.max = 0) (hlo : s0.dead + 1 ≤ seed) :
    ∃ v, dm2_slider_get (slider_feed (dm2_slider_reset s0 seed) bytes) = some v := by
  have inv : ∀ (l : List Nat) (s : dm2slider),
      s.max = 0 → s.min + s.dead + 1 ≤ s.mid →
      (slider_feed s l).max = 0
      ∧ (slider_feed s l).min + (slider_feed s l).dead + 1 ≤ (slider_feed s l).mid := by
    intro l
    induction l with
    | nil => intro s h1 h2; exact ⟨h1, h2⟩
    | cons b rest ih =>
      intro s h1 h2
      apply ih (dm2_slider_set s b) (slider_set_max_zero s b h1)
      rw [slider_set_mid, slider_set_dead]
      have := slider_set_min_le s b
      omega
  have e1 : u8 ((seed : Int) - s0.dead - 1) ≤ seed - s0.dead - 1 := by
    unfold u8
    omega
  obtain ⟨i1, i2⟩ := inv bytes (dm2_slider_reset s0 seed)
    (by simp [dm2_slider_reset, hmax])
    (by simp only [dm2_slider_reset]; omega)
  exact slider_get_defined _ i1 i2

/-! ## C10: the emission gate over sequences and with the port closed -/

/-- After a call of `dm2_slider_update` that returns, slider `k` is the updated
calibrator up to its last emitted value, and the number of sliders is unchanged. -/
theorem slider_update_geometry (dev d : usb_dm2) (k p b : Nat)
    (hk : k < dev.dm2.sliders.length) (h : dm2_slider_update dev k p b = some d) :
    d.dm2.sliders.length = dev.dm2.sliders.length
    ∧ slider_at d k
        = { dm2_slider_set (slider_at dev k) b with midival := (slider_at d k).midival } := by
  unfold dm2_slider_update at h
  simp only at h
  cases hg : dm2_slider_get (dm2_slider_set (slider_at dev k) b) with
  | none => rw [hg] at h; cases h
  | some v =>
    rw [hg] at h
    simp only at h
    by_cases he : v = (dm2_slider_set (slider_at dev k) b).midival
    · rw [if_pos he] at h
      cases h
      exact ⟨set_slider_length _ _ _, by rw [slider_at_set_slider dev k _ hk]⟩
    · rw [if_neg he] at h
      cases h
      have hlen : (set_slider (dm2_midi_send (set_slider dev k
          (dm2_slider_set (slider_at dev k) b)) 0xb0
          (dm2_slider_set (slider_at dev k) b).param v.toNat) k
          { dm2_slider_set (slider_at dev k) b with midival := v.toNat }).dm2.sliders.length
          = dev.dm2.sliders.length := by
        rw [set_slider_length]
        show (dm2_midi_send _ _ _ _).dm2.sliders.length = _
        rw [midi_send_dm2, set_slider_length]
      refine ⟨hlen, ?_⟩
      rw [slider_at_set_slider]
      show k < (dm2_midi_send _ _ _ _).dm2.sliders.length
      rw [midi_send_dm2, set_slider_length]
      exact hk

/-- A sequence of `dm2_slider_update` calls returns when slider `k` has no observed
maximum and its minimum lies below `center - dead_zone`: both hold after every call. -/
theorem slider_updates_total (k : Nat) (bytes : List Nat) (dev : usb_dm2)
    (hk : k < dev.dm2.sliders.length) (hmax : (slider_at dev k).max = 0)
    (hmin : (slider_at dev k).min + (slider_at dev k).dead + 1 ≤ (slider_at dev k).mid) :
    ∃ d, slider_updates k dev bytes = some d := by
  induction bytes generalizing dev with
  | nil => exact ⟨dev, rfl⟩
  | cons b rest ih =>
    have smax : (dm2_slider_set (slider_at dev k) b).max = 0 := slider_set_max_zero _ b hmax
    have smin : (dm2_slider_set (slider_at dev k) b).min
        + (dm2_slider_set (slider_at dev k) b).dead + 1
        ≤ (dm2_slider_set (slider_at dev k) b).mid := by
      rw [slider_set_mid, slider_set_dead]
      have := slider_set_min_le (slider_at dev k) b
      omega
    obtain ⟨v, hv⟩ := slider_get_defined _ smax smin
    obtain ⟨d1, e1, -, -⟩ := slider_update_calls_send dev k (slider_at dev k).pos b v hk hv
    obtain ⟨glen, gs⟩ := slider_update_geometry dev d1 k _ b hk e1
    have hk1 : k < d1.dm2.sliders.length := by rw [glen]; exact hk
    have h1max : (slider_at d1 k).max = 0 := by rw [gs]; exact smax
    have h1min : (slider_at d1 k).min + (slider_at d1 k).dead + 1 ≤ (slider_at d1 k).mid := by
      rw [gs]; exact smin
    obtain ⟨d, hd⟩ := ih d1 hk1 h1max h1min
    exact ⟨d, by simp only [slider_updates, e1, Option.some_bind, hd]⟩

/-- The state a reset leaves satisfies the conditions of `slider_updates_total` when
the calibrator had no observed maximum and the seed is at least `dead + 1`. -/
theorem slider_reset_safe (s0 : dm2slider) (seed : Nat) (hmax : s0.max = 0)
    (hlo : s0.dead + 1 ≤ seed) :
    (dm2_slider_reset s0 seed).max = 0
    ∧ (dm2_slider_reset s0 seed).min + (dm2_slider_reset s0 seed).dead + 1
        ≤ (dm2_slider_reset s0 seed).mid := by
  have e1 : u8 ((seed : Int) - s0.dead - 1) ≤ seed - s0.dead - 1 := by
    unfold u8
    omega
  constructor
  · simp [dm2_slider_reset, hmax]
  · simp only [dm2_slider_reset]
    omega

/-- With the port closed a sequence of `dm2_slider_update` calls leaves the MIDI
record as it was. -/
theorem slider_updates_closed (k : Nat) (bytes : List Nat) (dev d : usb_dm2)
    (hk : k < dev.dm2.sliders.length) (hclosed : dev.dm2midi.input = none)
    (hrun : slider_updates k dev bytes = some d) : d.dm2midi = dev.dm2midi := by
  induction bytes generalizing dev with
  | nil =>
    simp only [slider_updates, Option.some.injEq] at hrun
    rw [← hrun]
  | cons b rest ih =>
    simp only [slider_updates, Option.bind_eq_some] at hrun
    obtain ⟨d1, h1, h2⟩ := hrun
    have hex : ∃ v, dm2_slider_get (dm2_slider_set (slider_at dev k) b) = some v := by
      cases hg : dm2_slider_get (dm2_slider_set (slider_at dev k) b) with
      | none =>
        unfold dm2_slider_update at h1
        simp only [hg] at h1
        cases h1
      | some v => exact ⟨v, rfl⟩
    obtain ⟨v, hv⟩ := hex
    obtain ⟨d2, e1, eeq, ene⟩ := slider_update_calls_send dev k (slider_at dev k).pos b v hk hv
    rw [e1] at h1
    cases h1
    have hsend : dm2_midi_send dev 0xb0 (slider_at dev k).param v.toNat = dev := by
      unfold dm2_midi_send
      rw [hclosed]
    have hm : d1.dm2midi = dev.dm2midi := by
      by_cases he : v = (slider_at dev k).midival
      · exact (eeq he).1
      · rw [(ene he).1, hsend]
    have hlen := (slider_update_geometry dev d1 k _ b hk e1).1
    have := ih d1 (by rw [hlen]; exact hk) (by rw [hm]; exact hclosed) h2
    rw [this, hm]

/-- C10 as stated fails. With the port closed, slider 1 just reset to 80 (last emitted
value 64) and fed the raw byte 90 computes 127, which differs from 64, yet nothing is
emitted and the last emitted value is overwritten with 127. And a slider just reset to
0 on a zero-initialised calibrator and fed the raw byte 0 has no computed value: the
call has no result. -/
theorem slider_update_closed_port_counterexample :
    session_seeded_closed.dm2midi.input = none
    ∧ slider_at session_seeded_closed 1 = dm2_slider_reset (slider_at session0 1) 80
    ∧ (slider_at session_seeded_closed 1).midival = 64
    ∧ dm2_slider_get (dm2_slider_set (slider_at session_seeded_closed 1) 90) = some 127
    ∧ (dm2_slider_update session_seeded_closed 1 80 90).map
          (fun d => (d.dm2midi.input, (slider_at d 1).midival)) = some (none, 127)
    ∧ slider_at session_seeded_zero 1 = dm2_slider_reset slider_zeroed 0
    ∧ dm2_slider_get (dm2_slider_set (slider_at session_seeded_zero 1) 0) = none
    ∧ dm2_slider_update session_seeded_zero 1 0 0 = none := by
  decide

/-- C10 (amended). On each call of `dm2_slider_update` for which the value computed
after the update is defined, the call returns and hands the control change
`(0xb0, param, value)` to `dm2_midi_send` exactly when the value differs from the last
emitted value, which then becomes that value, whatever the state of the port. With the
port open that is exactly one chunk on the stream or none, the first call after a reset
writes if and only if the computed value is not 64, and along any sequence of calls
after a reset the written values start with a value other than 64 and no two
consecutive ones are equal. With the port closed nothing is written while the last
emitted value is still overwritten. The computed value is defined on every call, and
the whole sequence returns, when the calibrator had no observed maximum before the
reset and `dead + 1 ≤ seed`. -/
theorem slider_update_emission_gate (dev : usb_dm2) (k : Nat)
    (hk : k < dev.dm2.sliders.length) :
    (∀ (p b : Nat) (v : Int),
      dm2_slider_get (dm2_slider_set (slider_at dev k) b) = some v →
      ∃ d, dm2_slider_update dev k p b = some d
        ∧ (v = (slider_at dev k).midival →
            d.dm2midi = dev.dm2midi ∧ (slider_at d k).midival = (slider_at dev k).midival)
        ∧ (v ≠ (slider_at dev k).midival →
            d.dm2midi = (dm2_midi_send dev 0xb0 (slider_at dev k).param v.toNat).dm2midi
            ∧ (slider_at d k).midival = v.toNat))
    ∧ (∀ (w : List (List Nat)) (p b : Nat) (v : Int),
      dev.dm2midi.input = some w →
      dm2_slider_get (dm2_slider_set (slider_at dev k) b) = some v →
      ∃ d, dm2_slider_update dev k p b = some d
        ∧ (v = (slider_at dev k).midival → d.dm2midi.input = some w)
        ∧ (v ≠ (slider_at dev k).midival →
            d.dm2midi.input
              = some (w ++ [if (0xb0 + dev.dm2midi.chan) % 256 = dev.dm2midi.out_rstatus
                  then [(slider_at dev k).param, v.toNat]
                  else [(0xb0 + dev.dm2midi.chan) % 256, (slider_at dev k).param, v.toNat]])))
    ∧ (∀ (p b : Nat) (v : Int),
      dev.dm2midi.input = none →
      dm2_slider_get (dm2_slider_set (slider_at dev k) b) = some v →
      ∃ d, dm2_slider_update dev k p b = some d
        ∧ d.dm2midi = dev.dm2midi
        ∧ (v = (slider_at dev k).midival →
            (slider_at d k).midival = (slider_at dev k).midival)
        ∧ (v ≠ (slider_at dev k).midival → (slider_at d k).midival = v.toNat))
    ∧ (∀ (w : List (List Nat)) (s0 : dm2slider) (seed p b : Nat) (v : Int),
      dev.dm2midi.input = some w →
      slider_at dev k = dm2_slider_reset s0 seed →
      dm2_slider_get (dm2_slider_set (slider_at dev k) b) = some v →
      ∃ d, dm2_slider_update dev k p b = some d
        ∧ (d.dm2midi.input = some w ↔ v = 64))
    ∧ (∀ (w : List (List Nat)) (s0 : dm2slider) (seed : Nat) (bytes : List Nat) (d : usb_dm2),
      dev.dm2midi.input = some w →
      slider_at dev k = dm2_slider_reset s0 seed →
      slider_updates k dev bytes = some d →
      ∃ chunks, d.dm2midi.input = some (w ++ chunks)
        ∧ List.Chain' (fun a b => a ≠ b) (64 :: emitted_values chunks))
    ∧ (∀ (s0 : dm2slider) (seed : Nat) (bytes : List Nat),
      slider_at dev k = dm2_slider_reset s0 seed →
      s0.max = 0 → s0.dead + 1 ≤ seed →
      (∀ b, ∃ v, dm2_slider_get (dm2_slider_set (slider_at dev k) b) = some v)
      ∧ ∃ d, slider_updates k dev bytes = some d
          ∧ (∀ w, dev.dm2midi.input = some w →
              ∃ chunks, d.dm2midi.input = some (w ++ chunks)
                ∧ List.Chain' (fun a b => a ≠ b) (64 :: emitted_values chunks))
          ∧ (dev.dm2midi.input = none → d.dm2midi = dev.dm2midi)) := by
  refine ⟨?_, ?_, ?_, ?_, ?_, ?_⟩
  · intro p b v hv
    exact slider_update_calls_send dev k p b v hk hv
  · intro w p b v hopen hv
    obtain ⟨d, e1, -, eeq, ene⟩ := slider_update_open dev k p b w v hk hopen hv
    exact ⟨d, e1, fun h => (eeq h).1, fun h => (ene h).1⟩
  · intro p b v hclosed hv
    obtain ⟨d, e1, eeq, ene⟩ := slider_update_calls_send dev k p b v hk hv
    have hsend : dm2_midi_send dev 0xb0 (slider_at dev k).param v.toNat = dev := by
      unfold dm2_midi_send
      rw [hclosed]
    refine ⟨d, e1, ?_, fun h => (eeq h).2, fun h => (ene h).2⟩
    by_cases he : v = (slider_at dev k).midival
    · exact (eeq he).1
    · rw [(ene he).1, hsend]
  · intro w s0 seed p b v hopen hreset hv
    obtain ⟨d, e1, -, eeq, ene⟩ := slider_update_open dev k p b w v hk hopen hv
    have hm : (slider_at dev k).midival = 64 := by rw [hreset]; rfl
    rw [hm] at eeq ene
    refine ⟨d, e1, ?_, fun h => (eeq (by rw [h]; rfl)).1⟩
    intro hin
    by_contra hne
    have hne2 : v ≠ ((64 : Nat) : Int) := hne
    have := (ene hne2).1
    rw [hin] at this
    simp at this
  · intro w s0 seed bytes d hopen hreset hrun
    obtain ⟨chunks, c1, c2⟩ := slider_updates_chain k bytes dev d w hk hopen hrun
    have hm : (slider_at dev k).midival = 64 := by rw [hreset]; rfl
    rw [hm] at c2
    exact ⟨chunks, c1, c2⟩
  · intro s0 seed bytes hreset hmax hlo
    obtain ⟨r1, r2⟩ := slider_reset_safe s0 seed hmax hlo
    rw [← hreset] at r1 r2
    have hm : (slider_at dev k).midival = 64 := by rw [hreset]; rfl
    constructor
    · intro b
      apply slider_get_defined
      · exact slider_set_max_zero _ b r1
      · rw [slider_set_mid, slider_set_dead]
        have := slider_set_min_le (slider_at dev k) b
        omega
    · obtain ⟨d, hd⟩ := slider_updates_total k bytes dev hk r1 r2
      refine ⟨d, hd, ?_, ?_⟩
      · intro w hopen
        obtain ⟨chunks, c1, c2⟩ := slider_updates_chain k bytes dev d w hk hopen hd
        rw [hm] at c2
        exact ⟨chunks, c1, c2⟩
      · intro hclosed
        exact slider_updates_closed k bytes dev d hk hclosed hd

/-- Evaluation of C10 (amended) on slider 1 seeded at 80 with dead zone 2. With the
port open the raw bytes 80, 90, 100, 70 compute 64, 127, 127, 0 and write the values
127 and 0; with the port closed the same bytes write nothing, and the single byte 90
overwrites the last emitted value with 127. -/
theorem slider_update_emission_gate_witness :
    (slider_updates 1 session_seeded [80, 90, 100, 70]).map (fun d => d.dm2midi.input)
        = some (some [[0xb0, 2, 127], [2, 0]])
    ∧ (∃ d, slider_updates 1 session_seeded [80, 90, 100, 70] = some d
        ∧ ∃ chunks, d.dm2midi.input = some ([] ++ chunks)
          ∧ List.Chain' (fun a b => a ≠ b) (64 :: emitted_values chunks))
    ∧ (∃ d, slider_updates 1 session_seeded_closed [80, 90, 100, 70] = some d
        ∧ d.dm2midi = session_seeded_closed.dm2midi)
    ∧ (∃ d, dm2_slider_update session_seeded_closed 1 80 90 = some d
        ∧ d.dm2midi = session_seeded_closed.dm2midi
        ∧ (slider_at d 1).midival = 127) :=
  ⟨by decide,
   match ((slider_update_emission_gate session_seeded 1 (by decide)).2.2.2.2.2
      (slider_at session0 1) 80 [80, 90, 100, 70] rfl rfl (by decide)).2 with
   | ⟨d, hd, hopen, _⟩ => ⟨d, hd, hopen [] rfl⟩,
   match ((slider_update_emission_gate session_seeded_closed 1 (by decide)).2.2.2.2.2
      (slider_at session0 1) 80 [80, 90, 100, 70] rfl rfl (by decide)).2 with
   | ⟨d, hd, _, hclosed⟩ => ⟨d, hd, hclosed rfl⟩,
   match (slider_update_emission_gate session_seeded_closed 1 (by decide)).2.2.1
      80 90 127 rfl (by decide) with
   | ⟨d, hd, h1, _, h3⟩ => ⟨d, hd, h1, h3 (by decide)⟩⟩

end DM2
